import Mathlib

/-!
Verification of the expense-categorization engine of the budget-tracker
repository.  The embedding covers the three categorizer implementations the
claims point at:

* `src/backend/app/ml_categorizer.py`   (class EnhancedExpenseCategorizer,
  the five-stage orchestrator `categorize_expense`),
* `src/backend/services/ml_categorizer.py` (the cached string-returning
  `categorize`), and
* `src/ai_categorizer.py`              (class ExpenseCategorizer with the
  blank-input guard).

Modeling conventions: Python floats are modeled exactly over `ℚ` (every
constant in the code is a short decimal and the claims only compare, add and
divide such values); Python strings are modeled over `String` with ASCII
semantics for `lower`/`\w`/`\d`/`\s`; external ML models and HTTP endpoints
are oracles supplied in an environment record, with distinguished
constructors for the exception / malformed-response behaviors the code
handles, and the local-model attribute has a third, unset state (the
transformers-absent configuration, whose AttributeError reaches the outer
exception handler); wall-clock latency and log strings are not modeled.  `asyncio`
sleeps are recorded as data (their durations) rather than as real time.
-/

set_option maxRecDepth 16000

namespace BudgetTracker

/-! ### Python string primitives (ASCII semantics) -/

/-- The characters Python `str.strip`, `str.split` and the regex class
`\s` treat as whitespace (ASCII fragment). -/
def pySpace (c : Char) : Bool :=
  c = ' ' || c = '\t' || c = '\n' || c = '\r' || c = '\x0b' || c = '\x0c'

/-- Python `str.lower` (ASCII fragment). -/
def pyLower (s : String) : String := ⟨s.data.map Char.toLower⟩

/-- Python `str.strip()` with no arguments. -/
def pyStrip (s : String) : String :=
  ⟨((s.data.dropWhile pySpace).reverse.dropWhile pySpace).reverse⟩

def splitWsAux : List Char → List Char → List (List Char)
  | [], acc => if acc.isEmpty then [] else [acc.reverse]
  | c :: cs, acc =>
    if pySpace c then
      (if acc.isEmpty then splitWsAux cs [] else acc.reverse :: splitWsAux cs [])
    else splitWsAux cs (c :: acc)

/-- Python `str.split()` with no arguments: split on whitespace runs,
dropping empty fields. -/
def pySplitWs (s : String) : List String :=
  (splitWsAux s.data []).map (fun l => ⟨l⟩)

def isPrefixCh : List Char → List Char → Bool
  | [], _ => true
  | _ :: _, [] => false
  | a :: as, b :: bs => a = b && isPrefixCh as bs

def containsCh (needle : List Char) : List Char → Bool
  | [] => needle.isEmpty
  | c :: cs => isPrefixCh needle (c :: cs) || containsCh needle cs

/-- Python substring test `needle in hay`. -/
def containsSub (hay needle : String) : Bool := containsCh needle.data hay.data

def dropAfterFirst (needle : List Char) : List Char → Option (List Char)
  | [] => if needle.isEmpty then some [] else none
  | c :: cs =>
    if isPrefixCh needle (c :: cs) then some ((c :: cs).drop needle.length)
    else dropAfterFirst needle cs

def segsMatchCh : List Char → List (List Char) → Bool
  | _, [] => true
  | hay, seg :: rest =>
    match dropAfterFirst seg hay with
    | some h2 => segsMatchCh h2 rest
    | none => false

/-- Matching a regex of the shape `.*s1.*s2.*…` (the only shape appearing
in the source): the literal segments occur in order in the haystack. -/
def segsMatch (hay : String) (segs : List String) : Bool :=
  segsMatchCh hay.data (segs.map String.data)

/-- `[^\w\s]` complement: ASCII word characters. -/
def isWordChar (c : Char) : Bool := c.isAlphanum || c = '_'

def isDigitCh (c : Char) : Bool := decide ('0' ≤ c) && decide (c ≤ '9')

def collapseWsAux : List Char → Bool → List Char
  | [], _ => []
  | c :: cs, inRun =>
    if pySpace c then
      (if inRun then collapseWsAux cs true else ' ' :: collapseWsAux cs true)
    else c :: collapseWsAux cs false

/-- `EnhancedExpenseCategorizer._preprocess_description`: replace
punctuation by spaces, delete digits, collapse whitespace runs, strip and
lowercase. -/
def preprocess (s : String) : String :=
  let s1 := s.data.map (fun c => if isWordChar c || pySpace c then c else ' ')
  let s2 := s1.filter (fun c => !isDigitCh c)
  let s3 := collapseWsAux s2 false
  pyLower (pyStrip ⟨s3⟩)

/-! ### Association-list helpers mirroring Python dict behavior -/

/-- `defaultdict(float)` accumulation `d[k] += v`: keys keep first-touch
(insertion) order, which Python dict iteration and `max` tie-breaking
observe. -/
def bump (k : String) (v : ℚ) : List (String × ℚ) → List (String × ℚ)
  | [] => [(k, v)]
  | (k2, v2) :: t => if k2 = k then (k2, v2 + v) :: t else (k2, v2) :: bump k v t

/-- Python `max(items, key=value)`: the first item attaining the maximal
value wins (later items replace only on strictly greater value). -/
def firstMax (l : List (String × ℚ)) : String × ℚ :=
  match l with
  | [] => ("", 0)
  | x :: t => t.foldl (fun best y => if y.2 > best.2 then y else best) x

/-- Stable insertion step for a descending sort by score (Python
`sorted(key=score, reverse=True)` is stable). -/
def insertDesc (x : String × ℚ) : List (String × ℚ) → List (String × ℚ)
  | [] => [x]
  | y :: t => if y.2 > x.2 then y :: insertDesc x t else x :: y :: t

def sortDesc (l : List (String × ℚ)) : List (String × ℚ) :=
  l.foldr insertDesc []

/-- Python dict assignment `d[k] = v`: overwrite in place or append. -/
def setAssoc (k : String) (v : String) : List (String × String) → List (String × String)
  | [] => [(k, v)]
  | (k2, v2) :: t => if k2 = k then (k2, v) :: t else (k2, v2) :: setAssoc k v t

def lookupAssoc (k : String) : List (String × String) → Option String
  | [] => none
  | (k2, v2) :: t => if k2 = k then some v2 else lookupAssoc k t

/-- np.argmax: index of the first occurrence of the maximum. -/
def argmaxAux : List ℚ → ℚ → Nat → Nat → Nat
  | [], _, _, best => best
  | v :: t, bv, i, best =>
    if v > bv then argmaxAux t v (i + 1) i else argmaxAux t bv (i + 1) best

def argmaxIdx : List ℚ → Nat
  | [] => 0
  | x :: t => argmaxAux t x 1 0

/-! ### src/backend/app/ml_categorizer.py — data model -/

/-- `EnhancedExpenseCategorizer.__init__`: `self.categories`, the category
taxonomy with subcategory keyword lists. -/
def appCategories : List (String × List String) := [
  ("Food & Dining", ["restaurants", "fast_food", "groceries", "coffee", "delivery"]),
  ("Transportation", ["gas", "public_transport", "rideshare", "parking", "maintenance"]),
  ("Entertainment", ["streaming", "movies", "games", "events", "hobbies"]),
  ("Shopping", ["clothing", "electronics", "home_goods", "online", "retail"]),
  ("Utilities", ["electricity", "water", "internet", "phone", "cable"]),
  ("Healthcare", ["medical", "pharmacy", "insurance", "fitness", "wellness"]),
  ("Housing", ["rent", "mortgage", "maintenance", "furniture", "insurance"]),
  ("Education", ["tuition", "books", "courses", "training", "certifications"]),
  ("Travel", ["flights", "hotels", "vacation", "business_travel", "local_trips"]),
  ("Business", ["office_supplies", "software", "equipment", "meetings", "services"]),
  ("Other", ["miscellaneous", "personal", "gifts", "donations", "fees"])]

/-- `self.category_list = list(self.categories.keys())`. -/
def categoryList : List String := appCategories.map Prod.fst

/-- `_classify_with_similarity` builds, for every category, the example
texts `[category.lower()] + subcategories`; `category_labels` repeats the
category name once per example. -/
def similarityLabels : List String :=
  appCategories.flatMap (fun p => (pyLower p.1 :: p.2).map (fun _ => p.1))

/-- The partial result dict a single strategy returns (its
`category` / `confidence` / `alternatives` keys; the log-oriented
`reasoning` string is not modeled). -/
structure StratResult where
  category : String
  confidence : ℚ
  alternatives : List (String × ℚ)
deriving DecidableEq

/-- The observable part of the dict `categorize_expense` returns
(`description`, `clean_description`, `amount`, `processing_time_ms` and
`reasoning` are input echoes / wall-clock / log text and are not modeled). -/
structure ClassificationResult where
  category : String
  confidence : ℚ
  method : String
  alternatives : List (String × ℚ)
deriving DecidableEq

/-- The initial `result` dict of `categorize_expense`. -/
def initResult : ClassificationResult :=
  { category := "Other", confidence := 0, method := "fallback", alternatives := [] }

/-- `result.update(strategy_dict)` followed by `result["method"] = name`:
the strategy dict overwrites every modeled field of the running result. -/
def applyStrat (_r : ClassificationResult) (m : StratResult) (methodName : String) :
    ClassificationResult :=
  { category := m.category, confidence := m.confidence,
    alternatives := m.alternatives, method := methodName }

/-- Behavior of one local zero-shot classifier invocation: it may throw,
return a dict missing the `labels`/`scores` keys, or return ranked labels
with scores. -/
inductive ClassifierBehavior
  | raises
  | malformed
  | returns (labels : List String) (scores : List ℚ)
deriving DecidableEq

/-- One HTTP exchange of `_classify_with_api`: a well-formed 200, a 200
whose JSON lacks `labels`/`scores`, a 503, another non-200 status, or a
`requests.RequestException`. -/
inductive ApiEvent
  | ok (labels : List String) (scores : List ℚ)
  | okMalformed
  | busy
  | fail (code : Nat)
  | netError
deriving DecidableEq

/-- Behavior of the TF-IDF cosine-similarity computation: an exception, or
the similarity vector over the category examples. -/
inductive TfidfBehavior
  | raises
  | vec (sims : List ℚ)
deriving DecidableEq

/-- The state of the `self.classifier` attribute.  It is assigned only
inside the `if HF_AVAILABLE:` block of `_initialize_models`: when the
transformers import failed the attribute does not exist at all (`unset`,
and `if self.classifier:` raises AttributeError); when model loading
failed it was assigned None (`loadFailed`); otherwise it holds a pipeline
object whose zero-shot behavior is the oracle (`pipeline`). -/
inductive ClassifierSlot
  | unset
  | loadFailed
  | pipeline (cb : String → ClassifierBehavior)

/-- The external world of `EnhancedExpenseCategorizer`: state and
behavior of the local model attribute, the API key, the scripted responses
of the remote inference endpoint per input, and the sklearn vectorizer. -/
structure Env where
  classifier : ClassifierSlot
  hfApiKey : Bool
  api : String → List ApiEvent
  sklearnAvailable : Bool
  vectorizer : Option (String → TfidfBehavior)

/-! ### src/backend/app/ml_categorizer.py — the five strategies -/

/-- `_classify_with_local_model`: any exception or malformed result is
caught by its own `except` and becomes None — including the AttributeError
of an unset `self.classifier` and the `if not self.classifier: return
None` guard for an assigned None; indexing `labels[0]` / `scores[0]` on
empty lists is the caught IndexError case. -/
def classifyWithLocalModel (env : Env) (d : String) : Option StratResult :=
  match env.classifier with
  | ClassifierSlot.pipeline cb =>
    match cb d with
    | .raises => none
    | .malformed => none
    | .returns labels scores =>
      match labels, scores with
      | l0 :: lrest, s0 :: srest =>
        some { category := l0, confidence := s0,
               alternatives := (lrest.take 2).zip (srest.take 2) }
      | _, _ => none
  | _ => none

/-- The retry loop of `_classify_with_api` (`for attempt in range(3)`).
Returns the parsed result, the number of HTTP attempts made, and the
durations of the `asyncio.sleep` calls.  A 503 sleeps `2 ** attempt` and
retries; a `RequestException` sleeps 1s (except after the last attempt)
and retries; any other non-usable response breaks out of the loop.
Requests beyond the scripted events behave as network errors. -/
def apiLoop : List ApiEvent → Nat → Nat → Option StratResult × Nat × List ℚ
  | _, _, 0 => (none, 0, [])
  | events, attempt, fuel + 1 =>
    match events.headD ApiEvent.netError with
    | .ok (l0 :: lrest) (s0 :: srest) =>
      (some { category := l0, confidence := s0,
              alternatives := (lrest.take 2).zip (srest.take 2) }, 1, [])
    | .ok _ _ => (none, 1, [])
    | .okMalformed => (none, 1, [])
    | .fail _ => (none, 1, [])
    | .busy =>
      let r := apiLoop events.tail (attempt + 1) fuel
      (r.1, r.2.1 + 1, ((2 : ℚ) ^ attempt) :: r.2.2)
    | .netError =>
      let r := apiLoop events.tail (attempt + 1) fuel
      (r.1, r.2.1 + 1, (if attempt < 2 then [(1 : ℚ)] else []) ++ r.2.2)

/-- `_classify_with_api`. -/
def classifyWithApi (env : Env) (d : String) : Option StratResult × Nat × List ℚ :=
  apiLoop (env.api d) 0 3

/-- `_calculate_text_similarity`: Jaccard similarity of the word sets. -/
def wordSet (t : String) : List String := (pySplitWs (pyLower t)).dedup

def textSimilarity (t1 t2 : String) : ℚ :=
  let w1 := wordSet t1
  let w2 := wordSet t2
  if w1.isEmpty || w2.isEmpty then 0
  else
    let inter := w1.filter (fun w => w2.contains w)
    let uni := w1 ++ w2.filter (fun w => !w1.contains w)
    (inter.length : ℚ) / (uni.length : ℚ)

/-- `_classify_with_patterns`: votes of the stored entries whose Jaccard
similarity to the input exceeds 0.7, aggregated per category, capped at
0.9. -/
def classifyWithPatterns (pats : String → List (String × String)) (d uid : String) :
    Option StratResult :=
  let history := pats uid
  if history.isEmpty then none
  else
    let sims := history.filterMap (fun h =>
      let s := textSimilarity d h.1
      if s > 7/10 then some (h.2, s) else none)
    if sims.isEmpty then none
    else
      let scores := sims.foldl (fun acc p => bump p.1 p.2 acc) []
      let best := firstMax scores
      some { category := best.1, confidence := min best.2 (9/10), alternatives := [] }

/-- `_classify_with_similarity`: the sklearn TF-IDF computation is the
oracle; indexing `category_labels[best_idx]` out of range is the caught
IndexError case; below the 0.3 threshold the strategy reports no match. -/
def classifyWithSimilarity (env : Env) (d : String) : Option StratResult :=
  match env.vectorizer with
  | none => none
  | some vf =>
    match vf (pyLower d) with
    | .raises => none
    | .vec sims =>
      match sims with
      | [] => none
      | _ :: _ =>
        let i := argmaxIdx sims
        let bestSim := sims.getD i 0
        match similarityLabels.get? i with
        | none => none
        | some cat =>
          if bestSim > 3/10 then
            some { category := cat, confidence := min (bestSim * (12/10)) (8/10),
                   alternatives := [] }
          else none

/-- The weighted keyword table of `_classify_with_enhanced_rules`. -/
def enhancedPatterns : List (String × List (ℚ × List String)) := [
  ("Food & Dining",
    [(3, ["restaurant", "dining", "food", "meal"]),
     (2, ["coffee", "lunch", "dinner", "breakfast", "eat"]),
     (1, ["starbucks", "mcdonald", "pizza", "burger", "cafe", "grocery"])]),
  ("Transportation",
    [(3, ["uber", "lyft", "taxi", "gas", "fuel"]),
     (2, ["transport", "bus", "train", "subway", "parking"]),
     (1, ["toll", "car", "vehicle", "metro"])]),
  ("Entertainment",
    [(3, ["netflix", "spotify", "movie", "entertainment"]),
     (2, ["cinema", "theater", "music", "streaming"]),
     (1, ["game", "youtube", "subscription"])]),
  ("Shopping",
    [(3, ["amazon", "shopping", "store", "purchase"]),
     (2, ["clothes", "retail", "mall", "online"]),
     (1, ["buy", "clothing", "shoes"])]),
  ("Utilities",
    [(3, ["electric", "water", "internet", "phone"]),
     (2, ["utility", "cable", "wifi", "cellular"]),
     (1, ["mobile", "landline"])])]

def keywordScores (dl : String) : List (String × ℚ) :=
  enhancedPatterns.foldl (fun acc cp =>
    cp.2.foldl (fun acc wk =>
      wk.2.foldl (fun acc kw =>
        if containsSub dl kw then bump cp.1 wk.1 acc else acc) acc) acc) []

/-- The `if amount:` block of `_classify_with_enhanced_rules`; a zero (or
absent) amount is falsy and skips the adjustments. -/
def amountAdjust (amount : Option ℚ) (scores : List (String × ℚ)) : List (String × ℚ) :=
  match amount with
  | none => scores
  | some a =>
    if a = 0 then scores
    else if a > 500 then bump "Travel" (1/2) (bump "Housing" 1 scores)
    else if a < 10 then bump "Transportation" (1/2) (bump "Food & Dining" (1/2) scores)
    else scores

/-- `_classify_with_enhanced_rules`. -/
def classifyWithEnhancedRules (d : String) (amount : Option ℚ) : StratResult :=
  let dl := pyLower d
  let scores := amountAdjust amount (keywordScores dl)
  if scores.isEmpty then
    { category := "Other", confidence := 1/10, alternatives := [] }
  else
    let best := firstMax scores
    { category := best.1, confidence := min (best.2 / 5) (7/10),
      alternatives := (((sortDesc scores).drop 1).take 2).map (fun p => (p.1, p.2 / 5)) }

/-! ### src/backend/app/ml_categorizer.py — the orchestrator -/

/-- The mutable per-instance stores `categorize_expense` touches
(`self.user_patterns`, `self.category_history`; the write-only
`classification_stats` counters are not read by any classification logic
and are not modeled). -/
structure AppState where
  userPatterns : String → List (String × String)
  categoryHistory : String → Nat

def initAppState : AppState := ⟨fun _ => [], fun _ => 0⟩

/-- `_learn_from_classification`: append the pair, then clip the per-user
list to its last 100 entries. -/
def learnFromClassification (st : AppState) (description category uid : String) : AppState :=
  let l := st.userPatterns uid ++ [(description, category)]
  let l2 := if l.length > 100 then l.drop (l.length - 100) else l
  { userPatterns := Function.update st.userPatterns uid l2,
    categoryHistory :=
      Function.update st.categoryHistory category (st.categoryHistory category + 1) }

/-- Strategy 1: `if self.classifier:` then accept a local result above
0.6.  An assigned None is falsy and skips the stage; the unset case never
reaches this function — `categorizeExpense` resolves it before stage 1,
where the guard itself raises into the outer handler. -/
def stage1R (env : Env) (clean : String) (r : ClassificationResult) : ClassificationResult :=
  match env.classifier with
  | ClassifierSlot.pipeline _ =>
    match classifyWithLocalModel env clean with
    | some m => if m.confidence > 3/5 then applyStrat r m "local_ml" else r
    | none => r
  | _ => r

/-- Strategy 2: `if result["confidence"] < 0.6 and self.hf_api_key:`,
accept an API result that strictly beats the current confidence. -/
def stage2R (env : Env) (clean : String) (r : ClassificationResult) : ClassificationResult :=
  if r.confidence < 3/5 ∧ env.hfApiKey then
    match (classifyWithApi env clean).1 with
    | some m => if m.confidence > r.confidence then applyStrat r m "api_ml" else r
    | none => r
  else r

/-- Strategy 3: `if result["confidence"] < 0.5 and user_id:` (Python
truthiness: the empty string does not count as a user id). -/
def stage3R (pats : String → List (String × String)) (clean : String)
    (uid : Option String) (r : ClassificationResult) : ClassificationResult :=
  match uid with
  | some u =>
    if r.confidence < 1/2 ∧ u ≠ "" then
      match classifyWithPatterns pats clean u with
      | some m => if m.confidence > r.confidence then applyStrat r m "pattern_learning" else r
      | none => r
    else r
  | none => r

/-- Strategy 4: `if result["confidence"] < 0.4 and SKLEARN_AVAILABLE:`. -/
def stage4R (env : Env) (clean : String) (r : ClassificationResult) : ClassificationResult :=
  if r.confidence < 2/5 ∧ env.sklearnAvailable then
    match classifyWithSimilarity env clean with
    | some m => if m.confidence > r.confidence then applyStrat r m "semantic_similarity" else r
    | none => r
  else r

/-- Strategy 5: `if result["confidence"] < 0.3:` — the rules result
replaces the running result unconditionally. -/
def stage5R (clean : String) (amount : Option ℚ) (r : ClassificationResult) :
    ClassificationResult :=
  if r.confidence < 3/10 then
    applyStrat r (classifyWithEnhancedRules clean amount) "enhanced_rules"
  else r

structure Trace where
  localCalls : Nat
  apiAttempts : Nat
  apiSleeps : List ℚ
deriving DecidableEq

structure CatOut where
  result : ClassificationResult
  state : AppState
  trace : Trace

/-- `EnhancedExpenseCategorizer.categorize_expense`: preprocess, run the
five strategies in order, learn when a (truthy) user id is present and the
final confidence exceeds 0.5.  The trace records how often the local model
and the remote endpoint were invoked.  When `self.classifier` was never
assigned (transformers absent), the very first statement of the try block
— the `if self.classifier:` guard of strategy 1 — raises AttributeError
into the outer `except`, which replaces the result with the rules fallback
and the method string error_fallback; no strategy call is made and no
learning happens.  On every other path the outer handler is unreachable:
each remaining modeled failure mode is already caught inside its strategy,
and the remaining statements are pure. -/
def categorizeExpense (env : Env) (st : AppState) (description : String)
    (amount : Option ℚ) (userId : Option String) : CatOut :=
  let clean := preprocess description
  match env.classifier with
  | ClassifierSlot.unset =>
    { result := applyStrat initResult (classifyWithEnhancedRules clean amount)
        "error_fallback",
      state := st,
      trace := { localCalls := 0, apiAttempts := 0, apiSleeps := [] } }
  | _ =>
    let r1 := stage1R env clean initResult
    let r2 := stage2R env clean r1
    let r3 := stage3R st.userPatterns clean userId r2
    let r4 := stage4R env clean r3
    let r5 := stage5R clean amount r4
    let st2 :=
      match userId with
      | some u =>
        if u ≠ "" ∧ r5.confidence > 1/2 then learnFromClassification st clean r5.category u
        else st
      | none => st
    let apiTr := if r1.confidence < 3/5 ∧ env.hfApiKey then (classifyWithApi env clean).2
                 else (0, [])
    { result := r5, state := st2,
      trace := { localCalls :=
                   match env.classifier with
                   | ClassifierSlot.pipeline _ => 1
                   | _ => 0,
                 apiAttempts := apiTr.1, apiSleeps := apiTr.2 } }

/-- An environment with no local model (the attribute was assigned None
after a load failure), no API key, no sklearn: every external strategy
unavailable. -/
def envBare : Env :=
  { classifier := ClassifierSlot.loadFailed, hfApiKey := false, api := fun _ => [],
    sklearnAvailable := false, vectorizer := none }

/-! ### src/backend/services/ml_categorizer.py — data model -/

/-- One entry of `self.categories` in the services categorizer: keywords,
regex patterns (all of the shape `.*s1.*s2.*`, kept as their literal
segments) and amount ranges. -/
structure SCategory where
  name : String
  keywords : List String
  pats : List (List String)
  ranges : List (ℚ × ℚ)

/-- `_initialize_category_definitions` of the services categorizer. -/
def servicesCategories : List SCategory := [
  { name := "Food & Dining",
    keywords := ["restaurant", "food", "dining", "cafe", "coffee", "starbucks", "mcdonalds",
      "burger", "pizza", "sushi", "thai", "chinese", "mexican", "italian",
      "breakfast", "lunch", "dinner", "snack", "bakery", "deli", "bistro",
      "grill", "bar", "pub", "brewery", "wine", "alcohol", "grocery", "supermarket",
      "whole foods", "trader joes", "safeway", "kroger", "target", "walmart",
      "costco", "market", "fresh", "organic", "produce"],
    pats := [["restaurant"], ["food"], ["dining"], ["cafe"], ["grocery"], ["market"], ["fresh"]],
    ranges := [(0, 500)] },
  { name := "Transportation",
    keywords := ["uber", "lyft", "taxi", "gas", "fuel", "shell", "exxon", "chevron",
      "bp", "mobil", "station", "parking", "garage", "meter", "toll",
      "subway", "metro", "bus", "train", "airline", "flight", "airport",
      "car", "auto", "vehicle", "maintenance", "repair", "oil", "tire",
      "insurance", "registration", "dmv"],
    pats := [["gas", "station"], ["uber"], ["lyft"], ["taxi"], ["parking"], ["toll"],
      ["airline"], ["flight"]],
    ranges := [(5, 200), (200, 2000)] },
  { name := "Entertainment",
    keywords := ["netflix", "spotify", "hulu", "disney", "amazon prime", "youtube",
      "movie", "cinema", "theater", "concert", "show", "ticket", "event",
      "game", "gaming", "steam", "playstation", "xbox", "nintendo",
      "book", "kindle", "audible", "magazine", "subscription", "streaming",
      "music", "podcast", "app store", "google play"],
    pats := [["netflix"], ["spotify"], ["streaming"], ["subscription"], ["movie"],
      ["concert"], ["game"], ["entertainment"]],
    ranges := [(99/100, 100)] },
  { name := "Utilities & Bills",
    keywords := ["electric", "electricity", "power", "energy", "utility", "gas",
      "water", "sewer", "internet", "wifi", "phone", "mobile", "cellular",
      "cable", "tv", "television", "verizon", "att", "tmobile", "sprint",
      "comcast", "spectrum", "bill", "payment", "service", "account"],
    pats := [["electric"], ["utility"], ["bill"], ["payment"], ["service"], ["verizon"],
      ["comcast"], ["spectrum"]],
    ranges := [(20, 300)] },
  { name := "Shopping",
    keywords := ["amazon", "ebay", "store", "shop", "retail", "purchase", "buy",
      "clothing", "clothes", "fashion", "shoes", "accessories", "jewelry",
      "electronics", "computer", "phone", "laptop", "tablet", "gadget",
      "home", "furniture", "decor", "appliance", "tool", "hardware",
      "best buy", "target", "walmart", "costco", "online", "delivery"],
    pats := [["amazon"], ["store"], ["shop"], ["retail"], ["clothing"], ["electronics"],
      ["purchase"]],
    ranges := [(5, 1000)] },
  { name := "Health & Fitness",
    keywords := ["gym", "fitness", "workout", "health", "medical", "doctor", "hospital",
      "pharmacy", "medicine", "prescription", "dental", "dentist", "vision",
      "optometry", "therapy", "massage", "spa", "wellness", "supplement",
      "vitamin", "protein", "nutrition", "personal trainer", "yoga",
      "pilates", "crossfit", "membership"],
    pats := [["gym"], ["fitness"], ["medical"], ["health"], ["pharmacy"], ["doctor"],
      ["dental"]],
    ranges := [(10, 500)] },
  { name := "Education",
    keywords := ["school", "university", "college", "tuition", "education", "course",
      "class", "lesson", "training", "certification", "book", "textbook",
      "supplies", "student", "academic", "learning", "online course",
      "udemy", "coursera", "edx", "skillshare", "masterclass"],
    pats := [["school"], ["university"], ["course"], ["education"], ["tuition"],
      ["training"], ["certification"]],
    ranges := [(20, 5000)] },
  { name := "Travel",
    keywords := ["hotel", "motel", "airbnb", "booking", "travel", "vacation", "trip",
      "flight", "airline", "airport", "rental car", "car rental", "cruise",
      "resort", "tour", "ticket", "visa", "passport", "luggage", "travel insurance"],
    pats := [["hotel"], ["travel"], ["flight"], ["vacation"], ["airbnb"], ["booking"],
      ["rental"]],
    ranges := [(50, 3000)] },
  { name := "Miscellaneous",
    keywords := ["misc", "other", "various", "general", "unknown", "cash", "atm",
      "fee", "charge", "service", "payment", "transfer", "deposit"],
    pats := [["misc"], ["other"], ["unknown"], ["fee"], ["charge"], ["atm"]],
    ranges := [(0, 10000)] }]

def servicesCategoryNames : List String := servicesCategories.map SCategory.name

/-- `_get_merchant_score`: known-merchant table. -/
def merchantMappings : List (String × List String) := [
  ("Food & Dining", ["starbucks", "mcdonalds", "subway", "dominos", "pizza hut"]),
  ("Transportation", ["uber", "lyft", "shell", "exxon", "chevron"]),
  ("Entertainment", ["netflix", "spotify", "steam", "movie"]),
  ("Shopping", ["amazon", "ebay", "walmart", "target"]),
  ("Utilities & Bills", ["verizon", "comcast", "pg&e", "electric"])]

def merchantsFor (cat : String) : List String :=
  match merchantMappings.find? (fun p => p.1 = cat) with
  | some p => p.2
  | none => []

/-- `_get_merchant_score`: 2.0 on the first matching merchant substring,
else 0. -/
def getMerchantScore (d cat : String) : ℚ :=
  if (merchantsFor cat).any (fun m => containsSub d m) then 2 else 0

/-- The mutable stores of the services categorizer the classification
logic reads or writes: the result cache (keyed by the lowered, stripped
description and the amount — the user id is NOT part of the key) and the
single shared pattern store (`merchant_categories`,
`description_patterns`; the never-consulted `amount_patterns` and
`time_patterns` sub-dicts and the statistics counters are not modeled).
Stored description patterns are `re.escape(prefix)` literals, kept here as
the raw prefix and matched as case-insensitive substrings, which is what
`re.search` on an escaped literal does. -/
structure ServicesState where
  categoryCache : List ((String × ℚ) × String)
  merchantCategories : List (String × String)
  descPats : List (String × String)
deriving DecidableEq

def initServicesState : ServicesState := ⟨[], [], []⟩

def cacheLookup (key : String × ℚ) : List ((String × ℚ) × String) → Option String
  | [] => none
  | (k, v) :: t => if k = key then some v else cacheLookup key t

def cacheSet (key : String × ℚ) (v : String) :
    List ((String × ℚ) × String) → List ((String × ℚ) × String)
  | [] => [(key, v)]
  | (k, v2) :: t => if k = key then (k, v) :: t else (k, v2) :: cacheSet key v t

/-- Behavior of one NLI call of the services local model for one
category hypothesis: an exception, or a label (ENTAILMENT or not) and a
score. -/
inductive SLocalOut
  | raises
  | res (entailed : Bool) (score : ℚ)

/-- External world of the services categorizer: the optional local NLI
model (queried once per category hypothesis) and the optional TF-IDF
vectorizer. -/
structure SEnv where
  localModel : Option (String → ℚ → String → SLocalOut)
  vectorizer : Option (String → TfidfBehavior)

/-- `_classify_with_local_model` (services): best strictly-improving
ENTAILMENT score over the categories, accepted above 0.7; any exception
is caught and yields None. -/
def sClassifyLocal (env : SEnv) (d : String) (amount : ℚ) : Option String :=
  match env.localModel with
  | none => none
  | some g =>
    let step : Option String × ℚ → String → Except Unit (Option String × ℚ) := fun acc c =>
      match g d amount c with
      | .raises => .error ()
      | .res ent s => .ok (if ent ∧ s > acc.2 then (some c, s) else acc)
    match servicesCategoryNames.foldlM step (none, 0) with
    | .error _ => none
    | .ok acc => if acc.2 > 7/10 then acc.1 else none

/-- `_classify_with_patterns` (services): requires a truthy user id, but
then consults the SHARED merchant and description-pattern maps. -/
def sClassifyPatterns (st : ServicesState) (d : String) (uid : Option String) : Option String :=
  match uid with
  | none => none
  | some u =>
    if u = "" then none
    else
      match st.merchantCategories.find? (fun p => containsSub (pyLower d) (pyLower p.1)) with
      | some p => some p.2
      | none =>
        match st.descPats.find? (fun p => containsSub (pyLower d) (pyLower p.1)) with
        | some p => some p.2
        | none => none

/-- `_classify_with_semantics` (services). -/
def sSemantics (env : SEnv) (d : String) : Option String :=
  match env.vectorizer with
  | none => none
  | some vf =>
    match vf d with
    | .raises => none
    | .vec sims =>
      match sims with
      | [] => none
      | _ :: _ =>
        let i := argmaxIdx sims
        if sims.getD i 0 > 3/10 then servicesCategoryNames.get? i else none

/-- Per-category score of `_classify_with_enhanced_rules` (services):
length-weighted keyword hits, +3 per regex pattern, +1 per amount range
containing the amount, plus the merchant bonus. -/
def sRulesScore (d : String) (amount : ℚ) (c : SCategory) : ℚ :=
  let kw := c.keywords.foldl
    (fun s k => if containsSub d k then s + ((k.length : ℚ) / 10 + 1) else s) 0
  let pt := c.pats.foldl (fun s p => if segsMatch (pyLower d) p then s + 3 else s) 0
  let rg := c.ranges.foldl (fun s r => if r.1 ≤ amount ∧ amount ≤ r.2 then s + 1 else s) 0
  kw + pt + rg + getMerchantScore d c.name

/-- `_classify_with_enhanced_rules` (services): highest score wins (first
declared wins ties); non-positive best falls back to Miscellaneous. -/
def sRules (d : String) (amount : ℚ) : String :=
  let scores := servicesCategories.map (fun c => (c.name, sRulesScore d amount c))
  if scores.isEmpty then "Miscellaneous"
  else
    let best := firstMax scores
    if best.2 > 0 then best.1 else "Miscellaneous"

def take10 (s : String) : String := ⟨s.data.take 10⟩

/-- `_learn_from_classification` (services): learn the first word as a
merchant token (if longer than 3 characters) and the 10-character
description prefix, into the shared store; skipped for a falsy user id.
The amount parameter is accepted and ignored, as in the source. -/
def sLearn (st : ServicesState) (d : String) (_amount : ℚ) (category : String)
    (uid : Option String) : ServicesState :=
  match uid with
  | none => st
  | some u =>
    if u = "" then st
    else
      let st2 :=
        match pySplitWs d with
        | [] => st
        | w :: _ =>
          if w.length > 3 then
            { st with merchantCategories := setAssoc w category st.merchantCategories }
          else st
      if d.length > 5 then { st2 with descPats := setAssoc (take10 d) category st2.descPats }
      else st2

/-- `categorize` (services): cache check, then local model → patterns →
semantics → rules, then cache store and learning. -/
def sCategorize (env : SEnv) (st : ServicesState) (description : String) (amount : ℚ)
    (userId : Option String) : String × ServicesState :=
  let d := pyStrip (pyLower description)
  let key := (d, amount)
  match cacheLookup key st.categoryCache with
  | some c => (c, st)
  | none =>
    let category :=
      match sClassifyLocal env d amount with
      | some c => c
      | none =>
        match sClassifyPatterns st d userId with
        | some c => c
        | none =>
          match sSemantics env d with
          | some c => c
          | none => sRules d amount
    let st2 := { st with categoryCache := cacheSet key category st.categoryCache }
    (category, sLearn st2 d amount category userId)

/-- Modelled from the spec: `categorize` with the Result Cache disabled
(the spec's cache-transparency mode, section 4.6) — the identical strategy
chain and learning step of `sCategorize`, with the cache read and write
removed.  The source has no disable switch, so this definition realizes
the mode the spec quantifies over. -/
def sCategorizeNoCache (env : SEnv) (st : ServicesState) (description : String) (amount : ℚ)
    (userId : Option String) : String × ServicesState :=
  let d := pyStrip (pyLower description)
  let category :=
    match sClassifyLocal env d amount with
    | some c => c
    | none =>
      match sClassifyPatterns st d userId with
      | some c => c
      | none =>
        match sSemantics env d with
        | some c => c
        | none => sRules d amount
  (category, sLearn st d amount category userId)

/-- A services environment with neither a local model nor a vectorizer
(both import failures in the source). -/
def sEnvBare : SEnv := { localModel := none, vectorizer := none }

/-! ### src/ai_categorizer.py — ExpenseCategorizer -/

/-- `self.categories` of `ExpenseCategorizer` in src/ai_categorizer.py. -/
def aiCategories : List String :=
  ["Food and Dining", "Transportation", "Shopping", "Entertainment",
   "Bills and Utilities", "Healthcare", "Travel", "Business", "Education",
   "Personal Care", "Home and Garden", "Other"]

/-- The `keyword_map` of `_keyword_categorize`. -/
def aiKeywordMap : List (String × List String) := [
  ("Food and Dining",
    ["restaurant", "food", "lunch", "dinner", "breakfast", "coffee",
     "pizza", "burger", "meal", "grocery", "supermarket", "cafe",
     "starbucks", "mcdonald", "subway", "domino", "uber eats", "doordash"]),
  ("Transportation",
    ["uber", "lyft", "taxi", "gas", "fuel", "parking", "metro",
     "bus", "train", "flight", "airline", "car", "vehicle", "toll"]),
  ("Shopping",
    ["amazon", "walmart", "target", "shopping", "store", "mall",
     "clothing", "shoes", "electronics", "online", "purchase"]),
  ("Entertainment",
    ["movie", "cinema", "netflix", "spotify", "gaming", "concert",
     "theater", "entertainment", "music", "streaming", "youtube"]),
  ("Bills and Utilities",
    ["electric", "electricity", "water", "gas", "internet", "phone",
     "cable", "utility", "bill", "payment", "subscription"]),
  ("Healthcare",
    ["doctor", "hospital", "pharmacy", "medical", "health", "dentist",
     "insurance", "medicine", "prescription", "clinic"]),
  ("Travel",
    ["hotel", "flight", "vacation", "travel", "trip", "booking",
     "airbnb", "rental", "tourism", "holiday"]),
  ("Business",
    ["office", "business", "meeting", "conference", "supplies",
     "equipment", "software", "professional", "service"])]

/-- Python `round(x, 3)` (round half to even), on the exact rational
value; binary floating-point representation error is abstracted away. -/
def pyRound3 (x : ℚ) : ℚ :=
  let y := x * 1000
  let f := ⌊y⌋
  let r := y - (f : ℚ)
  let n : ℤ := if r < 1/2 then f else if r > 1/2 then f + 1 else if 2 ∣ f then f else f + 1
  (n : ℚ) / 1000

/-- The observable part of the dicts `ExpenseCategorizer.categorize_expense`
returns (`success` is the constant True and `all_scores` /
`keyword_scores` are diagnostic echoes; not modeled). -/
structure AiResult where
  category : String
  confidence : ℚ
  method : String
deriving DecidableEq

/-- External world of src/ai_categorizer.py: the optional local zero-shot
classifier (always invoked with the fixed `aiCategories` candidate list)
and the Hugging Face endpoint reached through httpx. -/
inductive AiApiBehavior
  | raises
  | status (code : Nat) (labels : List String) (scores : List ℚ)

structure AiEnv where
  classifier : Option (String → ClassifierBehavior)
  apiKey : Bool
  api : String → AiApiBehavior

/-- Per-category scores of `_keyword_categorize`: +1 per keyword
substring hit, +0.5 more when the keyword is one of the whitespace-split
words; every category of the map gets an entry. -/
def aiKeywordScores (clean : String) : List (String × ℚ) :=
  let words := pySplitWs clean
  aiKeywordMap.map (fun p =>
    (p.1, p.2.foldl (fun s k =>
      if containsSub clean k then (if words.contains k then s + 1 + 1/2 else s + 1) else s) 0))

/-- `_keyword_categorize`: first key attaining the maximal score wins;
confidence `min(0.9, max/3)`; all-zero scores fall back to
Other / default / 0.3. -/
def aiKeywordCategorize (clean : String) : AiResult :=
  let scores := aiKeywordScores clean
  let best := firstMax scores
  if !scores.isEmpty ∧ best.2 > 0 then
    { category := best.1, confidence := pyRound3 (min (9/10) (best.2 / 3)), method := "keyword" }
  else
    { category := "Other", confidence := 3/10, method := "default" }

/-- `ExpenseCategorizer.categorize_expense` of src/ai_categorizer.py,
together with the number of local-model invocations and of HTTP requests
it makes (returned alongside the result).  Blank input (empty, or
whitespace-only so that `description.strip()` is falsy) short-circuits to
Other / 0.5 / default before any strategy.  A local-model exception or
malformed / empty result falls through to the API; any API failure
(exception, non-200 status, missing fields) falls through to the keyword
classifier. -/
def aiCategorize (env : AiEnv) (description : String) : AiResult × Nat × Nat :=
  if description = "" ∨ pyStrip description = "" then
    ({ category := "Other", confidence := 1/2, method := "default" }, 0, 0)
  else
    let clean := pyLower (pyStrip description)
    let localCalls := if env.classifier.isSome then 1 else 0
    let localRes : Option AiResult :=
      match env.classifier with
      | none => none
      | some cb =>
        match cb clean with
        | .raises => none
        | .malformed => none
        | .returns (l0 :: _) (s0 :: _) =>
          some { category := l0, confidence := pyRound3 s0, method := "local_ai" }
        | .returns _ _ => none
    match localRes with
    | some r => (r, localCalls, 0)
    | none =>
      if env.apiKey then
        match env.api clean with
        | .raises => (aiKeywordCategorize clean, localCalls, 1)
        | .status code labels scores =>
          if code = 200 then
            match labels, scores with
            | l0 :: _, s0 :: _ =>
              ({ category := l0, confidence := pyRound3 s0, method := "api_ai" },
               localCalls, 1)
            | _, _ => (aiKeywordCategorize clean, localCalls, 1)
          else (aiKeywordCategorize clean, localCalls, 1)
      else (aiKeywordCategorize clean, localCalls, 0)

end BudgetTracker

namespace BudgetTracker

example : pySplitWs "  hello   world " = ["hello", "world"] := by decide

example : preprocess " Starbucks #123, Coffee!  " = "starbucks coffee" := by decide

example : containsSub "zzzz store" "store" = true := by decide

example : segsMatch "the gas at a station" ["gas", "station"] = true := by decide

example : firstMax [("a", 2), ("b", 3), ("c", 3)] = ("b", 3) := by decide

example : sortDesc [("a", 1), ("b", 3), ("c", 3), ("d", 2)] =
    [("b", 3), ("c", 3), ("d", 2), ("a", 1)] := by decide

example :
    (categorizeExpense envBare initAppState "Starbucks Coffee Shop" (some (99/20)) none).result =
      { category := "Food & Dining", confidence := 7/10, method := "enhanced_rules",
        alternatives := [("Transportation", 1/10)] } := by with_unfolding_all decide

example :
    (categorizeExpense envBare initAppState "zzzz" none none).result =
      { category := "Other", confidence := 1/10, method := "enhanced_rules",
        alternatives := [] } := by with_unfolding_all decide

/-! ### Claim C10 -/

/-- C10: in the enhanced rule-based scorer of the app orchestrator, an
amount of exactly 0 is treated as if no amount were supplied: for every
description, scoring with amount 0 returns the same category, confidence
and alternatives as scoring with no amount, because the amount-based score
adjustments run only when the amount is truthy. -/
theorem rules_zero_amount_eq_none (d : String) :
    classifyWithEnhancedRules d (some 0) = classifyWithEnhancedRules d none := by
  unfold classifyWithEnhancedRules amountAdjust
  simp

/-! ### Claim C7 -/

/-- C7: the per-user pattern store is mutated by a categorize call only
when a user identifier was supplied and the final confidence strictly
exceeds 0.5: for every call with no user id, or whose final confidence is
at most 0.5, every entry of the store is unchanged. -/
theorem pattern_store_mutation_guard (env : Env) (st : AppState) (d : String)
    (a : Option ℚ) (u : Option String)
    (h : u = none ∨ (categorizeExpense env st d a u).result.confidence ≤ 1/2) :
    (categorizeExpense env st d a u).state.userPatterns = st.userPatterns := by
  unfold categorizeExpense at h ⊢
  dsimp only at h ⊢
  cases hcl : env.classifier with
  | unset => rfl
  | loadFailed =>
    rw [hcl] at h
    dsimp only at h
    cases u with
    | none => rfl
    | some s =>
      rcases h with h | h
      · exact absurd h (by simp)
      · dsimp only at h ⊢
        split_ifs with hc
        · exact absurd h (not_le.mpr hc.2)
        · rfl
  | pipeline cb =>
    rw [hcl] at h
    dsimp only at h
    cases u with
    | none => rfl
    | some s =>
      rcases h with h | h
      · exact absurd h (by simp)
      · dsimp only at h ⊢
        split_ifs with hc
        · exact absurd h (not_le.mpr hc.2)
        · rfl

/-- Witness for C7 at a concrete low-confidence call. -/
theorem pattern_store_mutation_guard_witness :
    (categorizeExpense envBare initAppState "pizza" none (some "u")).state.userPatterns =
      initAppState.userPatterns :=
  pattern_store_mutation_guard envBare initAppState "pizza" none (some "u")
    (Or.inr (by with_unfolding_all decide))

/-! ### Claim C8 -/

/-- `_learn_from_classification` keeps every user history at 100 entries
or fewer, provided it was within the cap before. -/
theorem learn_bound (st : AppState) (d c uid : String)
    (h : ∀ v, (st.userPatterns v).length ≤ 100) (v : String) :
    ((learnFromClassification st d c uid).userPatterns v).length ≤ 100 := by
  unfold learnFromClassification
  simp only
  rcases eq_or_ne v uid with rfl | hv
  · rw [Function.update_same]
    split_ifs with hl
    · simp only [List.length_drop]
      omega
    · have := h v
      simp only [List.length_append, List.length_cons, List.length_nil] at hl ⊢
      omega
  · rw [Function.update_noteq hv]
    exact h v

/-- One orchestrator call keeps every user history within the cap. -/
theorem categorize_bound (env : Env) (st : AppState) (d : String) (a : Option ℚ)
    (u : Option String) (h : ∀ v, (st.userPatterns v).length ≤ 100) (v : String) :
    (((categorizeExpense env st d a u).state).userPatterns v).length ≤ 100 := by
  unfold categorizeExpense
  dsimp only
  cases hcl : env.classifier
  case unset => exact h v
  all_goals
    cases u with
    | none => exact h v
    | some s =>
      dsimp only
      split_ifs with hc
      · exact learn_bound _ _ _ _ h v
      · exact h v

/-- Running a list of calls (each with its own user id, description and
amount) through the orchestrator, threading the state. -/
def runCalls (env : Env) (calls : List (Option String × String × Option ℚ))
    (st : AppState) : AppState :=
  calls.foldl (fun s c => (categorizeExpense env s c.2.1 c.2.2 c.1).state) st

theorem runCalls_bound (env : Env) (calls : List (Option String × String × Option ℚ))
    (st : AppState) (h : ∀ v, (st.userPatterns v).length ≤ 100) :
    ∀ v, ((runCalls env calls st).userPatterns v).length ≤ 100 := by
  induction calls generalizing st with
  | nil => exact h
  | cons c t ih =>
    intro v
    simp only [runCalls, List.foldl_cons] at *
    exact ih _ (categorize_bound env st c.2.1 c.2.2 c.1 h) v

/-- C8: after any sequence of categorize calls from the initial state,
every user history holds at most 100 entries; and when learning fires at
the cap, the single oldest entry is evicted (FIFO) and the new entry is
appended. -/
theorem user_history_bounded_fifo :
    (∀ (env : Env) (calls : List (Option String × String × Option ℚ)) (u : String),
        ((runCalls env calls initAppState).userPatterns u).length ≤ 100) ∧
    (∀ (st : AppState) (d c uid : String),
        (st.userPatterns uid).length = 100 →
        (learnFromClassification st d c uid).userPatterns uid =
          (st.userPatterns uid).drop 1 ++ [(d, c)]) := by
  constructor
  · intro env calls u
    exact runCalls_bound env calls initAppState (fun v => by simp [initAppState]) u
  · intro st d c uid h
    unfold learnFromClassification
    simp only [Function.update_same]
    rw [if_pos (by simp [List.length_append, h])]
    rw [List.length_append, h]
    simp only [List.length_cons, List.length_nil]
    rw [List.drop_append_of_le_length (by omega)]

/-- A state already holding a full (100-entry) history for one user, for
the FIFO witness. -/
def st100 : AppState :=
  { userPatterns := fun _ => List.replicate 100 ("a", "b"), categoryHistory := fun _ => 0 }

/-- Witness for C8: the bound at a concrete run, and FIFO eviction at a
concrete full history. -/
theorem user_history_bounded_fifo_witness :
    ((runCalls envBare [(some "u", "pizza", none)] initAppState).userPatterns "u").length ≤ 100 ∧
    (learnFromClassification st100 "d" "c" "u").userPatterns "u" =
      (st100.userPatterns "u").drop 1 ++ [("d", "c")] :=
  ⟨user_history_bounded_fifo.1 envBare [(some "u", "pizza", none)] "u",
   user_history_bounded_fifo.2 st100 "d" "c" "u" (by simp [st100])⟩

/-! ### Claim C6 -/

/-- Environment of the C6 scenario: no local model, API key present, the
endpoint answering 503 to the first two requests and then 200 with
labels = [Transportation], scores = [0.93]. -/
def envC6 : Env where
  classifier := ClassifierSlot.loadFailed
  hfApiKey := true
  api := fun _ => [ApiEvent.busy, ApiEvent.busy, ApiEvent.ok ["Transportation"] [93/100]]
  sklearnAvailable := false
  vectorizer := none

/-- C6 counterexample: in the scenario of the claim the final method is
the string used by the code, api_ml, not remote_ml (even though the
category, confidence and attempt count are as claimed). -/
theorem remote_retry_method_counterexample :
    (categorizeExpense envC6 initAppState "taxi" none none).result.method ≠ "remote_ml" ∧
    (categorizeExpense envC6 initAppState "taxi" none none).result.category = "Transportation" ∧
    (categorizeExpense envC6 initAppState "taxi" none none).trace.apiAttempts = 3 := by
  with_unfolding_all decide

/-- C6 amended: with the local model unavailable and the endpoint
answering 503, 503, then 200 with labels = [Transportation],
scores = [0.93], the strategy makes exactly 3 HTTP attempts with
exponential backoff sleeps of 1s and 2s between them, and the final result
is category Transportation, confidence 0.93, method api_ml. -/
theorem remote_retry_scenario_amended :
    (categorizeExpense envC6 initAppState "taxi" none none).trace.apiAttempts = 3 ∧
    (categorizeExpense envC6 initAppState "taxi" none none).trace.apiSleeps = [1, 2] ∧
    (categorizeExpense envC6 initAppState "taxi" none none).result =
      { category := "Transportation", confidence := 93/100, method := "api_ml",
        alternatives := [] } := by
  with_unfolding_all decide

/-! ### Claim C4 -/

/-- Environment for the C4 counterexample: the remote endpoint answers a
well-formed 200 whose top score is 0.2. -/
def envApi02 : Env where
  classifier := ClassifierSlot.loadFailed
  hfApiKey := true
  api := fun _ => [ApiEvent.ok ["Transportation"] [1/5]]
  sklearnAvailable := false
  vectorizer := none

/-- C4 counterexample: the API stage accepts a result with confidence 0.2,
and the final rules stage then replaces it unconditionally (its guard is
only `confidence < 0.3`, with no comparison against the running best),
leaving a final confidence 0.1 strictly below an earlier accepted stage
confidence. -/
theorem stage_confidence_regression_counterexample :
    (stage2R envApi02 "zzzz" (stage1R envApi02 "zzzz" initResult)).confidence = 1/5 ∧
    (categorizeExpense envApi02 initAppState "zzzz" none none).result.confidence = 1/10 ∧
    (categorizeExpense envApi02 initAppState "zzzz" none none).result.confidence <
      (stage2R envApi02 "zzzz" (stage1R envApi02 "zzzz" initResult)).confidence := by
  with_unfolding_all decide

/-- C4 amended: the API, pattern and similarity stages (the stages guarded
by a comparison) replace the running best only when their confidence
strictly exceeds it — they never lower the confidence, and on a tie the
earlier result is kept unchanged; the final rules stage, however, replaces
the running result unconditionally whenever the running confidence is
below 0.3, which can lower the final confidence below an earlier accepted
stage confidence. -/
theorem stage_monotonicity_amended :
    (∀ (env : Env) (clean : String) (r : ClassificationResult),
      r.confidence ≤ (stage2R env clean r).confidence ∧
      ((stage2R env clean r).confidence ≤ r.confidence → stage2R env clean r = r)) ∧
    (∀ (pats : String → List (String × String)) (clean : String) (u : Option String)
        (r : ClassificationResult),
      r.confidence ≤ (stage3R pats clean u r).confidence ∧
      ((stage3R pats clean u r).confidence ≤ r.confidence → stage3R pats clean u r = r)) ∧
    (∀ (env : Env) (clean : String) (r : ClassificationResult),
      r.confidence ≤ (stage4R env clean r).confidence ∧
      ((stage4R env clean r).confidence ≤ r.confidence → stage4R env clean r = r)) ∧
    (∀ (clean : String) (a : Option ℚ) (r : ClassificationResult),
      r.confidence < 3/10 →
      stage5R clean a r = applyStrat r (classifyWithEnhancedRules clean a) "enhanced_rules") := by
  refine ⟨?_, ?_, ?_, ?_⟩
  · intro env clean r
    unfold stage2R
    split_ifs with h1
    · cases hm : (classifyWithApi env clean).1 with
      | none => exact ⟨le_refl _, fun _ => rfl⟩
      | some m =>
        dsimp only
        split_ifs with h2
        · exact ⟨le_of_lt h2, fun hle => absurd h2 (not_lt.mpr hle)⟩
        · exact ⟨le_refl _, fun _ => rfl⟩
    · exact ⟨le_refl _, fun _ => rfl⟩
  · intro pats clean u r
    unfold stage3R
    cases u with
    | none => exact ⟨le_refl _, fun _ => rfl⟩
    | some s =>
      dsimp only
      split_ifs with h1
      · cases hm : classifyWithPatterns pats clean s with
        | none => exact ⟨le_refl _, fun _ => rfl⟩
        | some m =>
          dsimp only
          split_ifs with h2
          · exact ⟨le_of_lt h2, fun hle => absurd h2 (not_lt.mpr hle)⟩
          · exact ⟨le_refl _, fun _ => rfl⟩
      · exact ⟨le_refl _, fun _ => rfl⟩
  · intro env clean r
    unfold stage4R
    split_ifs with h1
    · cases hm : classifyWithSimilarity env clean with
      | none => exact ⟨le_refl _, fun _ => rfl⟩
      | some m =>
        dsimp only
        split_ifs with h2
        · exact ⟨le_of_lt h2, fun hle => absurd h2 (not_lt.mpr hle)⟩
        · exact ⟨le_refl _, fun _ => rfl⟩
    · exact ⟨le_refl _, fun _ => rfl⟩
  · intro clean a r h
    unfold stage5R
    rw [if_pos h]

/-- Witness for C4 at concrete inputs: the API stage keeps a tied result
unchanged, and the rules stage fires below 0.3. -/
theorem stage_monotonicity_amended_witness :
    (stage2R envBare "pizza" initResult = initResult) ∧
    (stage5R "pizza" none initResult =
      applyStrat initResult (classifyWithEnhancedRules "pizza" none) "enhanced_rules") :=
  ⟨(stage_monotonicity_amended.1 envBare "pizza" initResult).2
     (by with_unfolding_all decide),
   stage_monotonicity_amended.2.2.2 "pizza" none initResult (by with_unfolding_all decide)⟩

/-! ### Claim C5 -/

/-- The services state reached from the initial state by two concrete
categorize calls: an anonymous call that populates the cache entry for
(zzzz store, 50) with Shopping, and a user call on a different description
that teaches the pattern store the merchant token zzzz → Transportation. -/
def sStateAfterTwo : ServicesState :=
  (sCategorize sEnvBare ((sCategorize sEnvBare initServicesState "zzzz store" 50 none).2)
    "zzzz gas station" 40 (some "u1")).2

/-- C5 counterexample: at the reachable state `sStateAfterTwo` (one fixed
pattern-learner state), the cached call returns the stale Shopping entry
while the cache-disabled classification of the same input returns
Transportation through the learned merchant pattern — the cache key omits
the user id and is never invalidated, so a hit need not equal a fresh
classification. -/
theorem cache_transparency_counterexample :
    (sCategorize sEnvBare sStateAfterTwo "zzzz store" 50 (some "u1")).1 = "Shopping" ∧
    (sCategorizeNoCache sEnvBare sStateAfterTwo "zzzz store" 50 (some "u1")).1 = "Transportation" ∧
    (sCategorize sEnvBare sStateAfterTwo "zzzz store" 50 (some "u1")).1 ≠
      (sCategorizeNoCache sEnvBare sStateAfterTwo "zzzz store" 50 (some "u1")).1 := by
  with_unfolding_all decide

/-- C5 amended: the cache is transparent only on a miss — when the key
(lowered stripped description, amount) is absent from the cache, running
with the cache returns exactly the category of the cache-disabled run and
leaves the identical pattern store; on a hit the call returns the stored
value of the earlier classification that populated the entry (and mutates
nothing), which can differ from a fresh classification because the key
omits the user id and the pattern store evolves between calls. -/
theorem cache_miss_transparent_hit_returns_stored (env : SEnv) (st : ServicesState)
    (d : String) (a : ℚ) (u : Option String) :
    (cacheLookup (pyStrip (pyLower d), a) st.categoryCache = none →
      (sCategorize env st d a u).1 = (sCategorizeNoCache env st d a u).1 ∧
      (sCategorize env st d a u).2.merchantCategories =
        (sCategorizeNoCache env st d a u).2.merchantCategories ∧
      (sCategorize env st d a u).2.descPats = (sCategorizeNoCache env st d a u).2.descPats) ∧
    (∀ c, cacheLookup (pyStrip (pyLower d), a) st.categoryCache = some c →
      (sCategorize env st d a u).1 = c ∧ (sCategorize env st d a u).2 = st) := by
  constructor
  · intro hmiss
    unfold sCategorize sCategorizeNoCache
    dsimp only
    rw [hmiss]
    dsimp only
    refine ⟨rfl, ?_, ?_⟩ <;>
    · unfold sLearn
      cases u with
      | none => rfl
      | some s =>
        dsimp only
        split_ifs <;> cases hw : pySplitWs (pyStrip (pyLower d)) <;> dsimp only <;>
          split_ifs <;> rfl
  · intro c hhit
    unfold sCategorize
    dsimp only
    rw [hhit]
    exact ⟨rfl, rfl⟩

/-- Witness for C5 at a concrete miss and a concrete hit. -/
theorem cache_miss_transparent_hit_returns_stored_witness :
    ((sCategorize sEnvBare initServicesState "zzzz store" 50 none).1 =
      (sCategorizeNoCache sEnvBare initServicesState "zzzz store" 50 none).1) ∧
    (sCategorize sEnvBare sStateAfterTwo "zzzz store" 50 none).1 = "Shopping" :=
  ⟨((cache_miss_transparent_hit_returns_stored sEnvBare initServicesState
      "zzzz store" 50 none).1 (by with_unfolding_all decide)).1,
   ((cache_miss_transparent_hit_returns_stored sEnvBare sStateAfterTwo
      "zzzz store" 50 none).2 "Shopping" (by with_unfolding_all decide)).1⟩

/-! ### Claim C9 -/

/-- The services state after one classification by user alice. -/
def sStateAfterAlice : ServicesState :=
  (sCategorize sEnvBare initServicesState "zzzz gas station" 40 (some "alice")).2

/-- C9 counterexample: in the services categorizer the pattern store is a
single shared map, not per-user — after alice classifies one expense, the
merchant token zzzz → Transportation she taught the store changes the
category bob receives for his own (different) expense from Shopping to
Transportation. -/
theorem pattern_noninterference_counterexample :
    (sCategorize sEnvBare sStateAfterAlice "zzzz store" 50 (some "bob")).1 = "Transportation" ∧
    (sCategorize sEnvBare initServicesState "zzzz store" 50 (some "bob")).1 = "Shopping" ∧
    (sCategorize sEnvBare sStateAfterAlice "zzzz store" 50 (some "bob")).1 ≠
      (sCategorize sEnvBare initServicesState "zzzz store" 50 (some "bob")).1 := by
  with_unfolding_all decide

/-- The pattern stage reads the store only at the key of its own user. -/
theorem classifyWithPatterns_congr (pats1 pats2 : String → List (String × String))
    (d uid : String) (h : pats1 uid = pats2 uid) :
    classifyWithPatterns pats1 d uid = classifyWithPatterns pats2 d uid := by
  unfold classifyWithPatterns
  rw [h]

/-- The app orchestrator result depends on the state only through the
pattern entries of the calling user. -/
theorem categorize_result_congr (env : Env) (st1 st2 : AppState) (d : String)
    (a : Option ℚ) (u : Option String)
    (h : ∀ s, u = some s → st1.userPatterns s = st2.userPatterns s) :
    (categorizeExpense env st1 d a u).result = (categorizeExpense env st2 d a u).result := by
  unfold categorizeExpense
  dsimp only
  cases hcl : env.classifier
  case unset => rfl
  all_goals
    cases u with
    | none => rfl
    | some s =>
      unfold stage3R
      dsimp only
      rw [classifyWithPatterns_congr st1.userPatterns st2.userPatterns (preprocess d) s
        (h s rfl)]

/-- An app orchestrator call for one user changes no other user's pattern
entries. -/
theorem categorize_frame (env : Env) (st : AppState) (d : String) (a : Option ℚ)
    (u : Option String) (b : String) (h : u ≠ some b) :
    (categorizeExpense env st d a u).state.userPatterns b = st.userPatterns b := by
  unfold categorizeExpense
  dsimp only
  cases hcl : env.classifier
  case unset => rfl
  all_goals
    cases u with
    | none => rfl
    | some s =>
      dsimp only
      split_ifs with hc
      · unfold learnFromClassification
        dsimp only
        rw [Function.update_noteq (fun hb => h (by rw [hb]))]
      · rfl

/-- Running a sequence of calls all made for the single user A. -/
def runUserCalls (env : Env) (A : String) (calls : List (String × Option ℚ))
    (st : AppState) : AppState :=
  calls.foldl (fun s c => (categorizeExpense env s c.1 c.2 (some A)).state) st

theorem runUserCalls_frame (env : Env) (A : String) (calls : List (String × Option ℚ))
    (st : AppState) (b : String) (h : b ≠ A) :
    (runUserCalls env A calls st).userPatterns b = st.userPatterns b := by
  induction calls generalizing st with
  | nil => rfl
  | cons c t ih =>
    simp only [runUserCalls, List.foldl_cons] at *
    rw [ih _, categorize_frame env st c.1 c.2 (some A) b
      (fun hs => h (by injection hs with hh; exact hh.symm))]

/-- C9 amended: in the app orchestrator the pattern store is keyed per
user, and pattern learning is isolated: for any user A and any user B
distinct from A (or anonymous), any sequence of classifications performed
for A leaves the result of a subsequent categorize call for B identical to
what it would have been without the A-run. (In the services categorizer the
store is shared and this fails — see the counterexample.) -/
theorem pattern_noninterference_app (env : Env) (A : String)
    (calls : List (String × Option ℚ)) (st : AppState) (d : String) (a : Option ℚ)
    (uB : Option String) (h : uB ≠ some A) :
    (categorizeExpense env (runUserCalls env A calls st) d a uB).result =
      (categorizeExpense env st d a uB).result := by
  apply categorize_result_congr
  intro s hs
  subst hs
  exact runUserCalls_frame env A calls st s (fun hsa => h (by rw [hsa]))

/-- Witness for C9: a concrete A-run does not change a concrete
B-result. -/
theorem pattern_noninterference_app_witness :
    (categorizeExpense envBare
        (runUserCalls envBare "alice" [("zzzz gas station", some 40)] initAppState)
        "zzzz store" (some 50) (some "bob")).result =
      (categorizeExpense envBare initAppState "zzzz store" (some 50) (some "bob")).result :=
  pattern_noninterference_app envBare "alice" [("zzzz gas station", some 40)]
    initAppState "zzzz store" (some 50) (some "bob") (by decide)

/-! ### Claim C3 -/

/-- A string whose Python strip is empty consists of whitespace only. -/
theorem allSpace_of_strip_empty (s : String) (h : pyStrip s = "") :
    ∀ c ∈ s.data, pySpace c := by
  have h2 : ((s.data.dropWhile pySpace).reverse.dropWhile pySpace).reverse = [] :=
    congrArg String.data h
  rw [List.reverse_eq_nil_iff, List.dropWhile_eq_nil_iff] at h2
  intro c hc
  rw [← List.takeWhile_append_dropWhile (p := pySpace) (l := s.data)] at hc
  rcases List.mem_append.mp hc with hc | hc
  · exact List.mem_takeWhile_imp hc
  · exact h2 c (List.mem_reverse.mpr hc)

theorem pySpace_not_digit (c : Char) (h : pySpace c) : isDigitCh c = false := by
  simp only [pySpace, Bool.or_eq_true, decide_eq_true_eq] at h
  rcases h with ⟨⟨⟨⟨h | h⟩ | h⟩ | h⟩ | h⟩ | h <;> subst h <;> decide

/-- On an all-whitespace tail, whitespace collapsing yields nothing when a
run is already open, and at most one space otherwise. -/
theorem collapse_all_space (l : List Char) (h : ∀ c ∈ l, pySpace c) :
    collapseWsAux l true = [] ∧
      collapseWsAux l false = if l.isEmpty then [] else [' '] := by
  induction l with
  | nil => exact ⟨rfl, rfl⟩
  | cons c cs ih =>
    have hc : pySpace c := h c (List.mem_cons_self c cs)
    have ih2 := ih (fun x hx => h x (List.mem_cons_of_mem c hx))
    constructor
    · simp only [collapseWsAux, hc, if_true]
      exact ih2.1
    · simp only [collapseWsAux, hc, if_true, List.isEmpty_cons]
      rw [ih2.1]

/-- Preprocessing sends every whitespace-only description to the empty
string. -/
theorem preprocess_blank (d : String) (h : pyStrip d = "") : preprocess d = "" := by
  have hall := allSpace_of_strip_empty d h
  unfold preprocess
  dsimp only
  have h1 : d.data.map (fun c => if isWordChar c || pySpace c then c else ' ') = d.data := by
    have := List.map_congr_left (l := d.data)
      (f := fun c => if isWordChar c || pySpace c then c else ' ') (g := id)
      (fun c hc => by simp [hall c hc])
    simpa using this
  rw [h1]
  have h2 : d.data.filter (fun c => !isDigitCh c) = d.data :=
    List.filter_eq_self.mpr (fun c hc => by simp [pySpace_not_digit c (hall c hc)])
  rw [h2]
  rcases hl : d.data with _ | ⟨c, cs⟩
  · rfl
  · have hcoll := (collapse_all_space (c :: cs) (fun x hx => hall x (hl ▸ hx))).2
    simp only [List.isEmpty_cons, if_neg] at hcoll
    rw [hcoll]
    rfl

/-- The word-set Jaccard similarity of the empty string to anything is
zero. -/
theorem textSimilarity_empty (x : String) : textSimilarity "" x = 0 := by
  have hw : wordSet "" = [] := rfl
  unfold textSimilarity
  rw [hw]
  simp

/-- The pattern stage never matches an empty cleaned description. -/
theorem patterns_empty_desc (pats : String → List (String × String)) (uid : String) :
    classifyWithPatterns pats "" uid = none := by
  unfold classifyWithPatterns
  dsimp only
  have hsims : (pats uid).filterMap
      (fun h => if textSimilarity "" h.1 > 7/10 then some (h.2, textSimilarity "" h.1)
        else none) = [] := by
    apply List.filterMap_eq_nil_iff.mpr
    intro p _
    rw [textSimilarity_empty]
    norm_num
  rw [hsims]
  simp

/-- C3 counterexample: the enhanced orchestrator has no blank-input guard;
a whitespace-only description with amount 600 and no strategy available is
routed through the pipeline and comes back as Housing / enhanced_rules —
not as the claimed catch-all Other with method default (and the local
model, were it available, would have been invoked). -/
theorem blank_input_counterexample :
    (categorizeExpense envBare initAppState "   " (some 600) none).result.category = "Housing" ∧
    (categorizeExpense envBare initAppState "   " (some 600) none).result.method =
      "enhanced_rules" ∧
    (categorizeExpense envBare initAppState "   " (some 600) none).result.category ≠ "Other" ∧
    (categorizeExpense envBare initAppState "   " (some 600) none).result.method ≠ "default" := by
  with_unfolding_all decide

/-- C3 amended: the blank-input guard exists only in the
src/ai_categorizer.py front end, whose categorize returns
Other / 0.5 / default for every empty-after-trimming description with zero
model and zero HTTP calls, in any environment.  The enhanced orchestrator
of src/backend/app/ml_categorizer.py has no such guard: a blank
description runs the full pipeline, and with every strategy unavailable
and no amount it returns Other with method enhanced_rules (confidence
0.1), not method default — and a truthy amount can even change the
category (see the counterexample). -/
theorem blank_input_amended :
    (∀ (env : AiEnv) (d : String), pyStrip d = "" →
      aiCategorize env d =
        ({ category := "Other", confidence := 1/2, method := "default" }, 0, 0)) ∧
    (∀ (st : AppState) (d : String) (u : Option String), pyStrip d = "" →
      (categorizeExpense envBare st d none u).result =
        { category := "Other", confidence := 1/10, method := "enhanced_rules",
          alternatives := [] }) := by
  constructor
  · intro env d h
    unfold aiCategorize
    rw [if_pos (Or.inr h)]
  · intro st d u h
    have hc : preprocess d = "" := preprocess_blank d h
    unfold categorizeExpense
    dsimp only
    rw [hc, show envBare.classifier = ClassifierSlot.loadFailed from rfl]
    dsimp only
    rw [show stage1R envBare "" initResult = initResult from rfl]
    rw [show stage2R envBare "" initResult = initResult from by with_unfolding_all rfl]
    have e3 : stage3R st.userPatterns "" u initResult = initResult := by
      unfold stage3R
      cases u with
      | none => rfl
      | some s =>
        dsimp only
        split_ifs with h1
        · rw [patterns_empty_desc]
        · rfl
    rw [e3]
    rw [show stage4R envBare "" initResult = initResult from by with_unfolding_all rfl]
    rw [show stage5R "" none initResult =
      { category := "Other", confidence := 1/10, method := "enhanced_rules",
        alternatives := [] } from by with_unfolding_all decide]

/-- Witness for C3 at a concrete whitespace-only description. -/
theorem blank_input_amended_witness :
    aiCategorize { classifier := none, apiKey := false, api := fun _ => AiApiBehavior.raises }
        "  " = ({ category := "Other", confidence := 1/2, method := "default" }, 0, 0) ∧
    (categorizeExpense envBare initAppState "  " none none).result =
      { category := "Other", confidence := 1/10, method := "enhanced_rules",
        alternatives := [] } :=
  ⟨blank_input_amended.1 _ "  " (by decide),
   blank_input_amended.2 initAppState "  " none (by decide)⟩

/-! ### Well-formedness of results (infrastructure for C1 and C2) -/

/-- The method strings `categorize_expense` can actually store in a final
result. -/
def methodsAllowed : List String :=
  ["local_ml", "api_ml", "pattern_learning", "semantic_similarity", "enhanced_rules"]

/-- The zero-shot contract of the inference services (spec section 6):
returned labels are drawn from the candidate set and scores lie in
[0, 1]. -/
def labelsWF (labels : List String) (scores : List ℚ) : Prop :=
  (∀ x ∈ labels, x ∈ categoryList) ∧ ∀ q ∈ scores, 0 ≤ q ∧ q ≤ 1

/-- An environment whose model and endpoint honor the zero-shot contract
whenever they return a well-formed response (they may still throw, answer
malformed payloads, or fail). -/
def EnvWF (env : Env) : Prop :=
  (∀ cb d labels scores, env.classifier = ClassifierSlot.pipeline cb →
      cb d = ClassifierBehavior.returns labels scores → labelsWF labels scores) ∧
  (∀ d labels scores, ApiEvent.ok labels scores ∈ env.api d → labelsWF labels scores)

/-- A pattern store whose learned categories belong to the taxonomy (true
of every state the orchestrator itself builds). -/
def StateWF (st : AppState) : Prop :=
  ∀ u p, p ∈ st.userPatterns u → p.2 ∈ categoryList

/-- Invariant carried through the pipeline stages. -/
def resultOk (r : ClassificationResult) : Prop :=
  r.category ∈ categoryList ∧ 0 ≤ r.confidence ∧ r.confidence ≤ 1 ∧
    (r.method ∈ methodsAllowed ∨ (r.method = "fallback" ∧ r.confidence = 0))

theorem envWF_bare : EnvWF envBare := by
  constructor
  · intro cb d labels scores hcb
    exact absurd hcb (by simp [envBare])
  · intro d labels scores hmem
    simp [envBare] at hmem

theorem stateWF_init : StateWF initAppState := by
  intro u p hp
  simp [initAppState] at hp

/-- Entries produced by `bump` satisfy any property that holds of the
existing entries, of the new entry, and is stable under adding the bumped
value. -/
theorem bump_forall {P : String × ℚ → Prop} (k : String) (v : ℚ) :
    ∀ (l : List (String × ℚ)), (∀ p ∈ l, P p) → P (k, v) →
      (∀ k2 v2, P (k2, v2) → P (k2, v2 + v)) → ∀ p ∈ bump k v l, P p
  | [], _, hkv, _ => by
    intro p hp
    unfold bump at hp
    rcases List.mem_singleton.mp hp with rfl
    exact hkv
  | (k2, v2) :: t, hl, hkv, hadd => by
    intro p hp
    unfold bump at hp
    split_ifs at hp with hk
    · rcases List.mem_cons.mp hp with rfl | hp
      · exact hadd k2 v2 (hl _ (List.mem_cons_self _ _))
      · exact hl p (List.mem_cons_of_mem _ hp)
    · rcases List.mem_cons.mp hp with rfl | hp
      · exact hl _ (List.mem_cons_self _ _)
      · exact bump_forall k v t (fun q hq => hl q (List.mem_cons_of_mem _ hq)) hkv hadd p hp

/-- Python max over a non-empty item list returns one of the items. -/
theorem firstMax_mem (l : List (String × ℚ)) (h : l ≠ []) : firstMax l ∈ l := by
  match l with
  | x :: t =>
    show t.foldl (fun best y => if y.2 > best.2 then y else best) x ∈ x :: t
    refine List.foldlRecOn t _ x (List.mem_cons_self x t) ?_
    intro b hb a ha
    split_ifs
    · exact List.mem_cons_of_mem x ha
    · exact hb

theorem bump_ne_nil (k : String) (v : ℚ) (l : List (String × ℚ)) : bump k v l ≠ [] := by
  cases l with
  | nil => exact List.cons_ne_nil _ _
  | cons p t =>
    unfold bump
    split_ifs <;> exact List.cons_ne_nil _ _

theorem foldl_bump_ne_nil (t : List (String × ℚ)) :
    ∀ acc : List (String × ℚ), acc ≠ [] →
      t.foldl (fun a q => bump q.1 q.2 a) acc ≠ [] := by
  induction t with
  | nil => exact fun acc h => h
  | cons q tl ih =>
    intro acc _
    simp only [List.foldl_cons]
    exact ih _ (bump_ne_nil q.1 q.2 acc)

/-- Every entry of the keyword score table has a taxonomy key and a
non-negative score. -/
theorem keywordScores_forall (dl : String) :
    ∀ p ∈ keywordScores dl, p.1 ∈ categoryList ∧ 0 ≤ p.2 := by
  unfold keywordScores
  refine List.foldlRecOn
    (motive := fun (acc : List (String × ℚ)) => ∀ p ∈ acc, p.1 ∈ categoryList ∧ 0 ≤ p.2)
    enhancedPatterns _ [] (fun p hp => absurd hp (List.not_mem_nil p)) ?_
  intro acc hacc cp hcp
  refine List.foldlRecOn
    (motive := fun (acc : List (String × ℚ)) => ∀ p ∈ acc, p.1 ∈ categoryList ∧ 0 ≤ p.2)
    cp.2 _ acc hacc ?_
  intro acc2 hacc2 wk hwk
  refine List.foldlRecOn
    (motive := fun (acc : List (String × ℚ)) => ∀ p ∈ acc, p.1 ∈ categoryList ∧ 0 ≤ p.2)
    wk.2 _ acc2 hacc2 ?_
  intro acc3 hacc3 kw _
  split_ifs
  · refine bump_forall cp.1 wk.1 acc3 hacc3 ⟨?_, ?_⟩ ?_
    · have hmem : ∀ q ∈ enhancedPatterns, q.1 ∈ categoryList := by decide
      exact hmem cp hcp
    · have hw : ∀ q ∈ enhancedPatterns, ∀ w ∈ q.2, 0 ≤ w.1 := by
        with_unfolding_all decide
      exact hw cp hcp wk hwk
    · intro k2 v2 h2
      have hw : ∀ q ∈ enhancedPatterns, ∀ w ∈ q.2, 0 ≤ w.1 := by
        with_unfolding_all decide
      exact ⟨h2.1, add_nonneg h2.2 (hw cp hcp wk hwk)⟩
  · exact hacc3

theorem amountAdjust_forall (a : Option ℚ) (scores : List (String × ℚ))
    (h : ∀ p ∈ scores, p.1 ∈ categoryList ∧ 0 ≤ p.2) :
    ∀ p ∈ amountAdjust a scores, p.1 ∈ categoryList ∧ 0 ≤ p.2 := by
  unfold amountAdjust
  cases a with
  | none => exact h
  | some x =>
    dsimp only
    split_ifs
    · exact h
    · refine bump_forall "Travel" (1/2)
        (bump "Housing" 1 scores)
        (bump_forall "Housing" 1 scores h ⟨by decide, by norm_num⟩
          (fun k2 v2 h2 => ⟨h2.1, add_nonneg h2.2 (by norm_num)⟩))
        ⟨by decide, by norm_num⟩ (fun k2 v2 h2 => ⟨h2.1, add_nonneg h2.2 (by norm_num)⟩)
    · refine bump_forall "Transportation" (1/2)
        (bump "Food & Dining" (1/2) scores)
        (bump_forall "Food & Dining" (1/2) scores h ⟨by decide, by norm_num⟩
          (fun k2 v2 h2 => ⟨h2.1, add_nonneg h2.2 (by norm_num)⟩))
        ⟨by decide, by norm_num⟩ (fun k2 v2 h2 => ⟨h2.1, add_nonneg h2.2 (by norm_num)⟩)
    · exact h

/-- A local-model result under the zero-shot contract stays inside the
taxonomy with confidence in [0, 1]. -/
theorem localModel_wf (env : Env) (d : String) (m : StratResult) (henv : EnvWF env)
    (h : classifyWithLocalModel env d = some m) :
    m.category ∈ categoryList ∧ 0 ≤ m.confidence ∧ m.confidence ≤ 1 := by
  unfold classifyWithLocalModel at h
  cases hcb : env.classifier with
  | unset => rw [hcb] at h; cases h
  | loadFailed => rw [hcb] at h; cases h
  | pipeline cb =>
    rw [hcb] at h
    dsimp only at h
    cases hb : cb d with
    | raises => rw [hb] at h; cases h
    | malformed => rw [hb] at h; cases h
    | returns labels scores =>
      rw [hb] at h
      obtain ⟨hl, hs⟩ := henv.1 cb d labels scores hcb hb
      cases labels with
      | nil => cases h
      | cons l0 lr =>
        cases scores with
        | nil => cases h
        | cons s0 sr =>
          obtain rfl := Option.some.inj h
          exact ⟨hl l0 (List.mem_cons_self _ _), (hs s0 (List.mem_cons_self _ _)).1,
            (hs s0 (List.mem_cons_self _ _)).2⟩

/-- Any result the API retry loop returns came from a scripted 200
response, hence obeys the zero-shot contract. -/
theorem apiLoop_wf (fuel : Nat) :
    ∀ (events : List ApiEvent) (attempt : Nat) (m : StratResult),
      (∀ labels scores, ApiEvent.ok labels scores ∈ events → labelsWF labels scores) →
      (apiLoop events attempt fuel).1 = some m →
      m.category ∈ categoryList ∧ 0 ≤ m.confidence ∧ m.confidence ≤ 1 := by
  induction fuel with
  | zero => intro events attempt m _ h; cases h
  | succ n ih =>
    intro events attempt m hWF h
    unfold apiLoop at h
    cases hev : events with
    | nil =>
      rw [hev] at h
      dsimp only [List.headD] at h
      exact ih [] (attempt + 1) m (fun l s hm => absurd hm (List.not_mem_nil _)) h
    | cons e t =>
      rw [hev] at h
      cases e with
      | ok labels scores =>
        have hls := hWF labels scores (hev ▸ List.mem_cons_self _ _)
        cases labels with
        | nil => cases h
        | cons l0 lr =>
          cases scores with
          | nil => cases h
          | cons s0 sr =>
            obtain rfl := Option.some.inj h
            exact ⟨hls.1 l0 (List.mem_cons_self _ _), (hls.2 s0 (List.mem_cons_self _ _)).1,
              (hls.2 s0 (List.mem_cons_self _ _)).2⟩
      | okMalformed => cases h
      | fail code => cases h
      | busy =>
        exact ih t (attempt + 1) m
          (fun l s hm => hWF l s (hev ▸ List.mem_cons_of_mem _ hm)) h
      | netError =>
        exact ih t (attempt + 1) m
          (fun l s hm => hWF l s (hev ▸ List.mem_cons_of_mem _ hm)) h

/-- Entries of the aggregated pattern-vote table: taxonomy keys and
positive scores, given a well-formed user history. -/
theorem patternScores_forall (sims : List (String × ℚ))
    (hkey : ∀ q ∈ sims, q.1 ∈ categoryList) (hpos : ∀ q ∈ sims, 0 < q.2) :
    ∀ p ∈ sims.foldl (fun acc q => bump q.1 q.2 acc) [],
      p.1 ∈ categoryList ∧ 0 < p.2 := by
  refine List.foldlRecOn
    (motive := fun (acc : List (String × ℚ)) => ∀ p ∈ acc, p.1 ∈ categoryList ∧ 0 < p.2)
    sims _ [] (fun p hp => absurd hp (List.not_mem_nil p)) ?_
  intro acc hacc q hq
  exact bump_forall q.1 q.2 acc hacc ⟨hkey q hq, hpos q hq⟩
    (fun k2 v2 h2 => ⟨h2.1, add_pos h2.2 (hpos q hq)⟩)

/-- A pattern-stage result over a well-formed store stays inside the
taxonomy with confidence in [0, 1]. -/
theorem patterns_wf (st : AppState) (d uid : String) (m : StratResult)
    (hst : StateWF st) (h : classifyWithPatterns st.userPatterns d uid = some m) :
    m.category ∈ categoryList ∧ 0 ≤ m.confidence ∧ m.confidence ≤ 1 := by
  unfold classifyWithPatterns at h
  dsimp only at h
  by_cases h1 : (st.userPatterns uid).isEmpty
  · rw [if_pos h1] at h; cases h
  · rw [if_neg h1] at h
    by_cases h2 : ((st.userPatterns uid).filterMap (fun p =>
        if textSimilarity d p.1 > 7/10 then some (p.2, textSimilarity d p.1)
        else none)).isEmpty
    · rw [if_pos h2] at h; cases h
    · rw [if_neg h2] at h
      obtain rfl := Option.some.inj h
      have hkey : ∀ q ∈ (st.userPatterns uid).filterMap (fun p =>
          if textSimilarity d p.1 > 7/10 then some (p.2, textSimilarity d p.1)
          else none), q.1 ∈ categoryList := by
        intro q hq
        obtain ⟨p, hp, hfq⟩ := List.mem_filterMap.mp hq
        by_cases ht : textSimilarity d p.1 > 7/10
        · rw [if_pos ht] at hfq
          obtain rfl := Option.some.inj hfq
          exact hst uid p hp
        · rw [if_neg ht] at hfq; cases hfq
      have hpos : ∀ q ∈ (st.userPatterns uid).filterMap (fun p =>
          if textSimilarity d p.1 > 7/10 then some (p.2, textSimilarity d p.1)
          else none), 0 < q.2 := by
        intro q hq
        obtain ⟨p, hp, hfq⟩ := List.mem_filterMap.mp hq
        by_cases ht : textSimilarity d p.1 > 7/10
        · rw [if_pos ht] at hfq
          obtain rfl := Option.some.inj hfq
          exact lt_trans (by norm_num) ht
        · rw [if_neg ht] at hfq; cases hfq
      have hscores := patternScores_forall _ hkey hpos
      have hne : (st.userPatterns uid).filterMap (fun p =>
          if textSimilarity d p.1 > 7/10 then some (p.2, textSimilarity d p.1)
          else none) ≠ [] := fun hnil => h2 (by rw [hnil]; rfl)
      have hfold : ((st.userPatterns uid).filterMap (fun p =>
          if textSimilarity d p.1 > 7/10 then some (p.2, textSimilarity d p.1)
          else none)).foldl (fun acc q => bump q.1 q.2 acc) [] ≠ [] := by
        obtain ⟨q, t, hqt⟩ := List.exists_cons_of_ne_nil hne
        rw [hqt]
        simp only [List.foldl_cons]
        exact foldl_bump_ne_nil t _ (bump_ne_nil q.1 q.2 [])
      obtain ⟨hc1, hc2⟩ := hscores _ (firstMax_mem _ hfold)
      exact ⟨hc1, le_min (le_of_lt hc2) (by norm_num),
        le_trans (min_le_right _ _) (by norm_num)⟩

theorem similarityLabels_sub : ∀ x ∈ similarityLabels, x ∈ categoryList := by decide

/-- A similarity-stage result stays inside the taxonomy with confidence in
[0, 1] (for any oracle vector: the label index is bounds-checked by the
caught IndexError). -/
theorem similarity_wf (env : Env) (d : String) (m : StratResult)
    (h : classifyWithSimilarity env d = some m) :
    m.category ∈ categoryList ∧ 0 ≤ m.confidence ∧ m.confidence ≤ 1 := by
  unfold classifyWithSimilarity at h
  cases hv : env.vectorizer with
  | none => rw [hv] at h; cases h
  | some vf =>
    rw [hv] at h
    dsimp only at h
    cases hb : vf (pyLower d) with
    | raises => rw [hb] at h; cases h
    | vec sims =>
      rw [hb] at h
      cases sims with
      | nil => cases h
      | cons s0 sr =>
        dsimp only at h
        cases hg : similarityLabels.get? (argmaxIdx (s0 :: sr)) with
        | none => rw [hg] at h; cases h
        | some cat =>
          rw [hg] at h
          dsimp only at h
          by_cases ht : (s0 :: sr).getD (argmaxIdx (s0 :: sr)) 0 > 3/10
          · rw [if_pos ht] at h
            obtain rfl := Option.some.inj h
            have h0 : (0:ℚ) < (s0 :: sr).getD (argmaxIdx (s0 :: sr)) 0 * (12/10) := by
              have : (0:ℚ) < (s0 :: sr).getD (argmaxIdx (s0 :: sr)) 0 :=
                lt_trans (by norm_num) ht
              nlinarith
            exact ⟨similarityLabels_sub cat (List.get?_mem hg),
              le_min (le_of_lt h0) (by norm_num),
              le_trans (min_le_right _ _) (by norm_num)⟩
          · rw [if_neg ht] at h; cases h

/-- The rules fallback always produces a taxonomy category and a
confidence in [0, 1]. -/
theorem rules_wf (d : String) (a : Option ℚ) :
    (classifyWithEnhancedRules d a).category ∈ categoryList ∧
    0 ≤ (classifyWithEnhancedRules d a).confidence ∧
    (classifyWithEnhancedRules d a).confidence ≤ 1 := by
  unfold classifyWithEnhancedRules
  dsimp only
  have hall : ∀ p ∈ amountAdjust a (keywordScores (pyLower d)),
      p.1 ∈ categoryList ∧ 0 ≤ p.2 :=
    amountAdjust_forall a _ (keywordScores_forall (pyLower d))
  by_cases he : (amountAdjust a (keywordScores (pyLower d))).isEmpty
  · rw [if_pos he]
    exact ⟨by decide, by norm_num, by norm_num⟩
  · rw [if_neg he]
    have hmem := firstMax_mem (amountAdjust a (keywordScores (pyLower d)))
      (fun hnil => he (by rw [hnil]; rfl))
    obtain ⟨h1, h2⟩ := hall _ hmem
    refine ⟨h1, le_min (div_nonneg h2 (by norm_num)) (by norm_num),
      le_trans (min_le_right _ _) (by norm_num)⟩

theorem stage1R_ok (env : Env) (clean : String) (r : ClassificationResult)
    (henv : EnvWF env) (h : resultOk r) : resultOk (stage1R env clean r) := by
  unfold stage1R
  cases hcb : env.classifier
  case unset => exact h
  case loadFailed => exact h
  case pipeline cb =>
    cases hm : classifyWithLocalModel env clean with
    | none => exact h
    | some m =>
      dsimp only
      split_ifs with h2
      · obtain ⟨hc, hl, hu⟩ := localModel_wf env clean m henv hm
        exact ⟨hc, hl, hu, Or.inl (by show "local_ml" ∈ methodsAllowed; decide)⟩
      · exact h

theorem stage2R_ok (env : Env) (clean : String) (r : ClassificationResult)
    (henv : EnvWF env) (h : resultOk r) : resultOk (stage2R env clean r) := by
  unfold stage2R
  split_ifs with h1
  · cases hm : (classifyWithApi env clean).1 with
    | none => exact h
    | some m =>
      dsimp only
      split_ifs with h2
      · obtain ⟨hc, hl, hu⟩ := apiLoop_wf 3 (env.api clean) 0 m
          (fun labels scores hmem => henv.2 clean labels scores hmem) hm
        exact ⟨hc, hl, hu, Or.inl (by show "api_ml" ∈ methodsAllowed; decide)⟩
      · exact h
  · exact h

theorem stage3R_ok (st : AppState) (clean : String) (u : Option String)
    (r : ClassificationResult) (hst : StateWF st) (h : resultOk r) :
    resultOk (stage3R st.userPatterns clean u r) := by
  unfold stage3R
  cases u with
  | none => exact h
  | some s =>
    dsimp only
    split_ifs with h1
    · cases hm : classifyWithPatterns st.userPatterns clean s with
      | none => exact h
      | some m =>
        dsimp only
        split_ifs with h2
        · obtain ⟨hc, hl, hu⟩ := patterns_wf st clean s m hst hm
          exact ⟨hc, hl, hu,
            Or.inl (by show "pattern_learning" ∈ methodsAllowed; decide)⟩
        · exact h
    · exact h

theorem stage4R_ok (env : Env) (clean : String) (r : ClassificationResult)
    (h : resultOk r) : resultOk (stage4R env clean r) := by
  unfold stage4R
  split_ifs with h1
  · cases hm : classifyWithSimilarity env clean with
    | none => exact h
    | some m =>
      dsimp only
      split_ifs with h2
      · obtain ⟨hc, hl, hu⟩ := similarity_wf env clean m hm
        exact ⟨hc, hl, hu,
          Or.inl (by show "semantic_similarity" ∈ methodsAllowed; decide)⟩
      · exact h
  · exact h

/-- After the final rules stage the invariant holds and the method is one
of the five reachable strategy strings (the initial fallback marker never
survives). -/
theorem stage5R_final (clean : String) (a : Option ℚ) (r : ClassificationResult)
    (h : resultOk r) :
    resultOk (stage5R clean a r) ∧ (stage5R clean a r).method ∈ methodsAllowed := by
  unfold stage5R
  split_ifs with h1
  · have hr := rules_wf clean a
    exact ⟨⟨hr.1, hr.2.1, hr.2.2, Or.inl (by show "enhanced_rules" ∈ methodsAllowed; decide)⟩,
      by show "enhanced_rules" ∈ methodsAllowed; decide⟩
  · rcases h.2.2.2 with hm | hm
    · exact ⟨h, hm⟩
    · exact absurd (by rw [hm.2]; norm_num) h1

theorem resultOk_init : resultOk initResult :=
  ⟨by decide, le_refl 0, by show (0:ℚ) ≤ 1; norm_num, Or.inr ⟨rfl, rfl⟩⟩

/-- The six method strings a finished `categorize_expense` call can carry:
the five strategy strings plus the outer-except marker error_fallback. -/
def methodsFinal : List String :=
  ["local_ml", "api_ml", "pattern_learning", "semantic_similarity", "enhanced_rules",
   "error_fallback"]

theorem methods_subset : ∀ x ∈ methodsAllowed, x ∈ methodsFinal := by decide

/-- Core invariant of a full orchestrator call (shared by the claims
about totality and well-formedness): the category is in the taxonomy, the
confidence in [0, 1], the method one of the six produced strings — and one
of the five strategy strings whenever the classifier attribute exists (the
error_fallback path is exactly the unset-attribute configuration). -/
theorem categorize_result_ok (env : Env) (st : AppState) (d : String) (a : Option ℚ)
    (u : Option String) (henv : EnvWF env) (hst : StateWF st) :
    (categorizeExpense env st d a u).result.category ∈ categoryList ∧
    0 ≤ (categorizeExpense env st d a u).result.confidence ∧
    (categorizeExpense env st d a u).result.confidence ≤ 1 ∧
    (categorizeExpense env st d a u).result.method ∈ methodsFinal ∧
    (env.classifier ≠ ClassifierSlot.unset →
      (categorizeExpense env st d a u).result.method ∈ methodsAllowed) := by
  unfold categorizeExpense
  dsimp only
  have h1 := stage1R_ok env (preprocess d) initResult henv resultOk_init
  have h2 := stage2R_ok env (preprocess d) _ henv h1
  have h3 := stage3R_ok st (preprocess d) u _ hst h2
  have h4 := stage4R_ok env (preprocess d) _ h3
  have h5 := stage5R_final (preprocess d) a _ h4
  cases hcl : env.classifier
  case unset =>
    have hr := rules_wf (preprocess d) a
    exact ⟨hr.1, hr.2.1, hr.2.2, by show "error_fallback" ∈ methodsFinal; decide,
      fun hne => absurd rfl hne⟩
  case loadFailed =>
    exact ⟨h5.1.1, h5.1.2.1, h5.1.2.2.1, methods_subset _ h5.2, fun _ => h5.2⟩
  case pipeline cb =>
    exact ⟨h5.1.1, h5.1.2.1, h5.1.2.2.1, methods_subset _ h5.2, fun _ => h5.2⟩

/-! ### Claim C2 -/

/-- C2 counterexample: for the non-empty description pizza (no strategy
available) the final method is enhanced_rules, which is not one of the six
method strings the claim fixes (local_ml, remote_ml, pattern_learned,
semantic_similarity, rule_based, default). -/
theorem method_enum_counterexample :
    (categorizeExpense envBare initAppState "pizza" none none).result.method =
      "enhanced_rules" ∧
    (categorizeExpense envBare initAppState "pizza" none none).result.method ∉
      (["local_ml", "remote_ml", "pattern_learned", "semantic_similarity", "rule_based",
        "default"] : List String) := by
  with_unfolding_all decide

/-- The transformers-absent configuration: `self.classifier` was never
assigned, even though an API key and sklearn are present. -/
def envUnset : Env where
  classifier := ClassifierSlot.unset
  hfApiKey := true
  api := fun _ => [ApiEvent.ok ["Transportation"] [93/100]]
  sklearnAvailable := true
  vectorizer := none

example :
    (categorizeExpense envUnset initAppState "pizza" none (some "u")).result =
      { category := "Food & Dining", confidence := 1/5, method := "error_fallback",
        alternatives := [] } := by
  with_unfolding_all decide

example :
    (categorizeExpense envUnset initAppState "pizza" none (some "u")).trace =
      { localCalls := 0, apiAttempts := 0, apiSleeps := [] } := by
  with_unfolding_all decide

/-- C2 amended: for every non-empty description (any amount, any user id),
whenever the local model and the endpoint honor the zero-shot response
contract (labels from the candidate list, scores in [0, 1]) and the stored
user patterns carry taxonomy categories, the result of categorize has a
category in the configured taxonomy, a confidence in [0, 1], and a method
equal to one of exactly the six strings the code produces: local_ml,
api_ml, pattern_learning, semantic_similarity, enhanced_rules,
error_fallback — where error_fallback is produced exactly when the
classifier attribute was never assigned (transformers absent) and the
outer exception handler tags the rules fallback, and otherwise the method
is one of the first five. -/
theorem categorize_result_wf (env : Env) (st : AppState) (d : String) (a : Option ℚ)
    (u : Option String) (henv : EnvWF env) (hst : StateWF st)
    (_hd : pyStrip d ≠ "") :
    (categorizeExpense env st d a u).result.category ∈ categoryList ∧
    0 ≤ (categorizeExpense env st d a u).result.confidence ∧
    (categorizeExpense env st d a u).result.confidence ≤ 1 ∧
    (categorizeExpense env st d a u).result.method ∈ methodsFinal ∧
    (env.classifier ≠ ClassifierSlot.unset →
      (categorizeExpense env st d a u).result.method ∈ methodsAllowed) :=
  categorize_result_ok env st d a u henv hst

/-- Witness for C2 at a concrete call. -/
theorem categorize_result_wf_witness :
    (categorizeExpense envBare initAppState "pizza" none none).result.category ∈
      categoryList ∧
    0 ≤ (categorizeExpense envBare initAppState "pizza" none none).result.confidence ∧
    (categorizeExpense envBare initAppState "pizza" none none).result.confidence ≤ 1 ∧
    (categorizeExpense envBare initAppState "pizza" none none).result.method ∈
      methodsFinal ∧
    (envBare.classifier ≠ ClassifierSlot.unset →
      (categorizeExpense envBare initAppState "pizza" none none).result.method ∈
        methodsAllowed) :=
  categorize_result_wf envBare initAppState "pizza" none none envWF_bare stateWF_init
    (by decide)

/-! ### Claim C1 -/

/-- The API loop yields no result when no scripted event is a well-formed
200 response (every attempt fails or throws). -/
theorem apiLoop_none (fuel : Nat) :
    ∀ (events : List ApiEvent) (attempt : Nat),
      (∀ e ∈ events, ∀ labels scores, e ≠ ApiEvent.ok labels scores) →
      (apiLoop events attempt fuel).1 = none := by
  induction fuel with
  | zero => intro events attempt _; rfl
  | succ n ih =>
    intro events attempt h
    unfold apiLoop
    cases hev : events with
    | nil =>
      dsimp only [List.headD]
      exact ih [] (attempt + 1) (fun e he => absurd he (List.not_mem_nil e))
    | cons e t =>
      cases e with
      | ok labels scores =>
        exact absurd rfl (h (ApiEvent.ok labels scores)
          (hev ▸ List.mem_cons_self _ _) labels scores)
      | okMalformed => rfl
      | fail code => rfl
      | busy =>
        dsimp only [List.headD, List.tail_cons]
        exact ih t (attempt + 1)
          (fun e he => h e (hev ▸ List.mem_cons_of_mem _ he))
      | netError =>
        dsimp only [List.headD, List.tail_cons]
        exact ih t (attempt + 1)
          (fun e he => h e (hev ▸ List.mem_cons_of_mem _ he))

/-- C1: the orchestrator is a total function of its inputs and
environment — every call returns a classification result (never raises),
and the returned category is always one of the taxonomy (so at worst the
catch-all Other), including in the transformers-absent configuration whose
AttributeError is caught by the outer handler and tagged error_fallback;
moreover every modeled failure of a strategy — a local model exception, an
API script with no usable 200 response (timeouts, 503s, other statuses,
malformed bodies), a vectorizer exception — is absorbed inside that
strategy and becomes no result for the stage. -/
theorem orchestrator_never_raises :
    (∀ (env : Env) (st : AppState) (d : String) (a : Option ℚ) (u : Option String),
      EnvWF env → StateWF st →
      (categorizeExpense env st d a u).result.category ∈ categoryList) ∧
    (∀ (env : Env) (cb : String → ClassifierBehavior) (d : String),
      env.classifier = ClassifierSlot.pipeline cb → cb d = ClassifierBehavior.raises →
      classifyWithLocalModel env d = none) ∧
    (∀ (env : Env) (d : String),
      (∀ e ∈ env.api d, ∀ labels scores, e ≠ ApiEvent.ok labels scores) →
      (classifyWithApi env d).1 = none) ∧
    (∀ (env : Env) (vf : String → TfidfBehavior) (d : String),
      env.vectorizer = some vf → vf (pyLower d) = TfidfBehavior.raises →
      classifyWithSimilarity env d = none) := by
  refine ⟨?_, ?_, ?_, ?_⟩
  · intro env st d a u henv hst
    exact (categorize_result_ok env st d a u henv hst).1
  · intro env cb d hcb hb
    unfold classifyWithLocalModel
    rw [hcb]
    dsimp only
    rw [hb]
  · intro env d h
    exact apiLoop_none 3 (env.api d) 0 h
  · intro env vf d hv hb
    unfold classifyWithSimilarity
    rw [hv]
    dsimp only
    rw [hb]

/-- An environment whose local model always throws. -/
def envRaisy : Env where
  classifier := ClassifierSlot.pipeline (fun _ => ClassifierBehavior.raises)
  hfApiKey := false
  api := fun _ => [ApiEvent.netError, ApiEvent.busy, ApiEvent.fail 500]
  sklearnAvailable := false
  vectorizer := some (fun _ => TfidfBehavior.raises)

/-- Witness for C1 at concrete failing environments. -/
theorem orchestrator_never_raises_witness :
    (categorizeExpense envBare initAppState "pizza" none none).result.category ∈
      categoryList ∧
    classifyWithLocalModel envRaisy "pizza" = none ∧
    (classifyWithApi envRaisy "pizza").1 = none ∧
    classifyWithSimilarity envRaisy "pizza" = none :=
  ⟨orchestrator_never_raises.1 envBare initAppState "pizza" none none envWF_bare
     stateWF_init,
   orchestrator_never_raises.2.1 envRaisy (fun _ => ClassifierBehavior.raises) "pizza"
     rfl rfl,
   orchestrator_never_raises.2.2.1 envRaisy "pizza"
     (by
       intro e he labels scores
       simp only [envRaisy, List.mem_cons, List.not_mem_nil, or_false] at he
       rcases he with rfl | rfl | rfl <;> exact fun hcontra => nomatch hcontra),
   orchestrator_never_raises.2.2.2 envRaisy (fun _ => TfidfBehavior.raises) "pizza"
     rfl rfl⟩

end BudgetTracker
